import Mathlib

/-!
Shallow embedding of the checkout/cart/order core of the ecommerce backend
(`app/crud.py`, `app/routers/orders.py`, `app/routers/cart.py`,
`app/models.py`).  Monetary values (Python floats holding decimal money) are
modelled as exact rationals; Python `round(x, 2)` is modelled as round-half-up
to two decimal places.  Database rows are Lean structures, the database is a
record of row lists, and every operation returns the successor database state
together with its result, so that "leaves the state unchanged" claims are
directly statable.  Clock readings and generated UUID suffixes are passed in
as explicit parameters.
-/

namespace Ecom

/-- models.py `ProductStatus`. -/
inductive ProductStatus
  | active
  | inactive
  | out_of_stock
  | discontinued
deriving DecidableEq

/-- models.py `OrderStatus`. -/
inductive OrderStatus
  | pending
  | confirmed
  | processing
  | shipped
  | delivered
  | cancelled
  | refunded
deriving DecidableEq

/-- models.py `UserRole`. -/
inductive UserRole
  | customer
  | vendor
  | admin
deriving DecidableEq

/-- models.py `Product`, restricted to the columns the checkout workflow
reads: id, name, sku, price, status, track_inventory, stock_quantity.
`stock_quantity` is a signed integer column, so it is `Int` here (nothing in
the schema forbids negative values). -/
structure Product where
  id : Nat
  name : String
  sku : String
  price : ℚ
  status : ProductStatus
  track_inventory : Bool
  stock_quantity : Int
deriving DecidableEq

/-- models.py `CartItem` (authenticated cart): one row per
(user, product, variant). -/
structure CartItem where
  id : Nat
  user_id : Nat
  product_id : Nat
  variant_id : Option Nat
  quantity : Int
deriving DecidableEq

/-- models.py `SessionCart` (guest cart): one row per (session, product). -/
structure SessionCartItem where
  id : Nat
  session_id : String
  product_id : Nat
  quantity : Int
deriving DecidableEq

/-- models.py `Order`, restricted to the fields the claims mention. -/
structure Order where
  id : Nat
  order_number : String
  user_id : Option Nat
  session_id : Option String
  customer_name : Option String
  subtotal : ℚ
  tax_amount : ℚ
  shipping_amount : ℚ
  discount_amount : ℚ
  total_amount : ℚ
  status : OrderStatus
deriving DecidableEq

/-- models.py `OrderItem`: line item with a product snapshot. -/
structure OrderItem where
  order_id : Nat
  product_id : Nat
  variant_id : Option Nat
  product_name : String
  product_sku : String
  quantity : Int
  unit_price : ℚ
  total_price : ℚ
deriving DecidableEq

/-- The relational state touched by the checkout workflow.  `next_order_id`
models the autoincrement primary key of the orders table. -/
structure DB where
  products : List Product
  cart_items : List CartItem
  session_cart : List SessionCartItem
  orders : List Order
  order_items : List OrderItem
  next_order_id : Nat
deriving DecidableEq

/-- Error outcomes surfaced by the routers/crud functions.  Python raises
`HTTPException` / `ValueError` with distinguishing messages; each distinct
message is a constructor here. -/
inductive ApiError
  | emptyCart
  | productNotFound
  | productUnavailable (name : String)
  | insufficientStock (name : String) (available : Int) (requested : Int)
  | notAuthorized
  | invalidStateTransition
  | orderNotFound
  | cartItemNotFound
  | invalidQuantity
  | storageFailure
  | integrityError
deriving DecidableEq

/-- Python `round(x, 2)` on decimal money, modelled as round-half-up to two
decimal places over exact rationals. -/
def round2 (q : ℚ) : ℚ := ((round (q * 100) : ℤ) : ℚ) / 100

/-- crud.py `get_product_by_id` (the rating decoration is irrelevant to the
claims and is omitted). -/
def get_product_by_id (db : DB) (pid : Nat) : Option Product :=
  db.products.find? (fun p => p.id == pid)

/-- crud.py `get_user_cart`: all cart rows of one user. -/
def get_user_cart (db : DB) (uid : Nat) : List CartItem :=
  db.cart_items.filter (fun ci => ci.user_id == uid)

/-- The session-cart rows of one session (the row query inside
crud.py `get_session_cart` / `create_order_from_session_cart`). -/
def get_session_cart_items (db : DB) (sid : String) : List SessionCartItem :=
  db.session_cart.filter (fun ci => ci.session_id == sid)

/-- crud.py `clear_user_cart`. -/
def clear_user_cart (db : DB) (uid : Nat) : DB :=
  { db with cart_items := db.cart_items.filter (fun ci => !(ci.user_id == uid)) }

/-- crud.py `clear_session_cart`. -/
def clear_session_cart (db : DB) (sid : String) : DB :=
  { db with session_cart := db.session_cart.filter (fun ci => !(ci.session_id == sid)) }

/-- Overwrite the stock_quantity of the product row with the given id
(the effect of `product.stock_quantity = s` on the ORM object). -/
def setStock (db : DB) (pid : Nat) (s : Int) : DB :=
  let ps := db.products.map (fun p => if p.id == pid then { p with stock_quantity := s } else p)
  { db with products := ps }

/-- The order rows of the database. -/
def orderItemsOf (db : DB) (oid : Nat) : List OrderItem :=
  db.order_items.filter (fun it => it.order_id == oid)

/-- The stock_quantity of the product with the given id, when it exists. -/
def stockOf (db : DB) (pid : Nat) : Option Int :=
  (get_product_by_id db pid).map (fun p => p.stock_quantity)

/-- crud.py `update_cart_item`: set the quantity of the row with the given id
belonging to the given user; `none` when no such row. -/
def update_cart_item (db : DB) (cartItemId uid : Nat) (q : Int) :
    DB × Option CartItem :=
  match db.cart_items.find? (fun ci => ci.id == cartItemId && ci.user_id == uid) with
  | none => (db, none)
  | some ci =>
    let rows := db.cart_items.map
      (fun x => if x.id == ci.id then { x with quantity := q } else x)
    ({ db with cart_items := rows }, some { ci with quantity := q })

/-- routers/cart.py `update_cart_item` endpoint: rejects quantity ≤ 0 with
HTTP 400 before touching the database, otherwise delegates to the crud
function and 404s when the row is absent. -/
def update_cart_item_api (db : DB) (uid cartItemId : Nat) (q : Int) :
    DB × Except ApiError CartItem :=
  if q ≤ 0 then (db, Except.error ApiError.invalidQuantity)
  else
    match update_cart_item db cartItemId uid q with
    | (db', some ci) => (db', Except.ok ci)
    | (db', none) => (db', Except.error ApiError.cartItemNotFound)

/-- crud.py `update_session_cart_item`: delete the (session, product) row when
the requested quantity is ≤ 0, otherwise overwrite its quantity; `none` when
no such row. -/
def update_session_cart_item (db : DB) (sid : String) (pid : Nat) (q : Int) :
    DB × Option SessionCartItem :=
  match db.session_cart.find? (fun ci => ci.session_id == sid && ci.product_id == pid) with
  | none => (db, none)
  | some ci =>
    if q ≤ 0 then
      let rows := db.session_cart.filter (fun x => !(x.id == ci.id))
      ({ db with session_cart := rows }, some ci)
    else
      let rows := db.session_cart.map
        (fun x => if x.id == ci.id then { x with quantity := q } else x)
      ({ db with session_cart := rows }, some { ci with quantity := q })

/-- The unit price the cart code reads through `item.product.price`
(only evaluated where the product exists). -/
def priceOf (db : DB) (pid : Nat) : ℚ :=
  ((get_product_by_id db pid).map (fun p => p.price)).getD 0

/-- Totals projection returned by the cart summary endpoints. -/
structure CartSummary where
  total_items : Int
  subtotal : ℚ
  tax_amount : ℚ
  shipping_amount : ℚ
  total_amount : ℚ
deriving DecidableEq

/-- The subtotal the authenticated cart summary computes: sum of
`item.product.price * item.quantity` (routers/cart.py line 95). -/
def userCartSubtotal (db : DB) (uid : Nat) : ℚ :=
  ((get_user_cart db uid).map (fun ci => priceOf db ci.product_id * ci.quantity)).sum

/-- routers/cart.py `get_cart_summary`: authenticated-cart totals; shipping is
0 when the subtotal is 0 or at least 500, else the flat 50. -/
def get_cart_summary (db : DB) (uid : Nat) : CartSummary :=
  let cart := get_user_cart db uid
  let total_items := (cart.map (fun ci => ci.quantity)).sum
  let subtotal := userCartSubtotal db uid
  let tax_amount := subtotal * (18 / 100)
  let shipping_amount : ℚ := if subtotal = 0 ∨ subtotal ≥ 500 then 0 else 50
  let total_amount := subtotal + tax_amount + shipping_amount
  { total_items := total_items
    subtotal := round2 subtotal
    tax_amount := round2 tax_amount
    shipping_amount := shipping_amount
    total_amount := round2 total_amount }

/-- crud.py `get_session_cart`: guest-cart totals; a line whose product is
gone contributes a 0.0 subtotal (the serializer's explicit fallback).
`sessionCartSubtotal` is the summed per-line subtotal of the serializer. -/
def sessionCartSubtotal (db : DB) (sid : String) : ℚ :=
  ((get_session_cart_items db sid).map (fun ci =>
    match get_product_by_id db ci.product_id with
    | some p => p.price * ci.quantity
    | none => 0)).sum

/-- crud.py `get_session_cart` totals (see the comment above
`sessionCartSubtotal`). -/
def get_session_cart (db : DB) (sid : String) : CartSummary :=
  let items := get_session_cart_items db sid
  let total_items := (items.map (fun ci => ci.quantity)).sum
  let subtotal := sessionCartSubtotal db sid
  let tax_amount := round2 (subtotal * (18 / 100))
  let shipping_amount : ℚ := if subtotal ≥ 500 ∨ subtotal = 0 then 0 else 50
  let total_amount := round2 (subtotal + tax_amount + shipping_amount)
  { total_items := total_items
    subtotal := round2 subtotal
    tax_amount := tax_amount
    shipping_amount := shipping_amount
    total_amount := total_amount }

/-- crud.py `create_order` order-number scheme
`ORD-<today as YYYYMMDD>-<first 8 chars of a fresh UUID, uppercased>`; the
date string and the random suffix are environment inputs. -/
def userOrderNumber (dateStr uuid8 : String) : String :=
  "ORD-" ++ dateStr ++ "-" ++ uuid8

/-- crud.py `create_order_from_session_cart` order-number scheme
`ORD-<int(time.time())>-<first 8 chars of the session id>`; the clock second
is an environment input. -/
def sessionOrderNumber (t : Nat) (sid : String) : String :=
  "ORD-" ++ toString t ++ "-" ++ sid.take 8

/-- schemas.py `OrderItemCreate`: a requested order line
(variant_id defaults to none when the caller does not pass one). -/
structure OrderItemCreate where
  product_id : Nat
  variant_id : Option Nat
  quantity : Int
  unit_price : ℚ
deriving DecidableEq

/-- crud.py `create_order`: compute totals from the requested lines
(tax 18 percent, shipping 0 only when subtotal is strictly above 500, no
rounding anywhere), insert the order row, then insert one line-item row per
requested line whose product id still resolves — a line whose product is gone
is silently skipped while its amount stays inside the totals. -/
def create_order (db : DB) (items : List OrderItemCreate) (uid : Nat)
    (dateStr uuid8 : String) : DB × Order :=
  let subtotal := (items.map (fun it => (it.quantity : ℚ) * it.unit_price)).sum
  let tax_amount := subtotal * (18 / 100)
  let shipping_amount : ℚ := if subtotal > 500 then 0 else 50
  let total_amount := subtotal + tax_amount + shipping_amount
  let order : Order :=
    { id := db.next_order_id
      order_number := userOrderNumber dateStr uuid8
      user_id := some uid
      session_id := none
      customer_name := none
      subtotal := subtotal
      tax_amount := tax_amount
      shipping_amount := shipping_amount
      discount_amount := 0
      total_amount := total_amount
      status := OrderStatus.pending }
  let newItems := items.filterMap (fun it =>
    (get_product_by_id db it.product_id).map (fun p =>
      ({ order_id := order.id
         product_id := it.product_id
         variant_id := it.variant_id
         product_name := p.name
         product_sku := p.sku
         quantity := it.quantity
         unit_price := it.unit_price
         total_price := (it.quantity : ℚ) * it.unit_price } : OrderItem)))
  ({ db with
      orders := db.orders ++ [order]
      order_items := db.order_items ++ newItems
      next_order_id := db.next_order_id + 1 }, order)

/-- The validation loop of routers/orders.py `create_order_from_cart`
(lines 166-172): per line it reads `item.product` and checks ONLY
`track_inventory and stock_quantity < quantity`; a vanished product row makes
the attribute access blow up (modelled as `productNotFound`), and an inactive
product passes. -/
def validateUserCart (db : DB) : List CartItem → Except ApiError Unit
  | [] => Except.ok ()
  | ci :: rest =>
    match get_product_by_id db ci.product_id with
    | none => Except.error ApiError.productNotFound
    | some p =>
      if p.track_inventory = true ∧ p.stock_quantity < ci.quantity then
        Except.error (ApiError.insufficientStock p.name p.stock_quantity ci.quantity)
      else validateUserCart db rest

/-- The stock-decrement loop of routers/orders.py `create_order_from_cart`
(lines 208-211): for every cart line whose product tracks inventory, subtract
the line quantity from the product's current stock. -/
def decLoopUser : DB → List CartItem → DB
  | db, [] => db
  | db, ci :: rest =>
    match get_product_by_id db ci.product_id with
    | some p =>
      if p.track_inventory = true then
        decLoopUser (setStock db ci.product_id (p.stock_quantity - ci.quantity)) rest
      else decLoopUser db rest
    | none => decLoopUser db rest

/-- routers/orders.py `create_order_from_cart` (the authenticated
`POST /orders/checkout`): read the user's cart, 400 when empty, run the
stock-only validation loop, build the order lines from the cart at current
prices (variant ids are dropped by the `OrderItemCreate` construction), call
`crud.create_order`, decrement tracked stock per cart line, and clear the
cart.  The totals the router computes at lines 175-178 are never used (crud
recomputes them) and are omitted.  `cartOrderItems` is the order-line list
the router builds at lines 181-187: current price as unit price, and no
variant id (the `OrderItemCreate` construction does not pass one). -/
def cartOrderItems (db : DB) (uid : Nat) : List OrderItemCreate :=
  (get_user_cart db uid).map (fun ci =>
    ({ product_id := ci.product_id
       variant_id := none
       quantity := ci.quantity
       unit_price := priceOf db ci.product_id } : OrderItemCreate))

/-- routers/orders.py `create_order_from_cart`, continued: the endpoint body
(see the comment above `cartOrderItems`). -/
def create_order_from_cart (db : DB) (uid : Nat) (dateStr uuid8 : String) :
    DB × Except ApiError Order :=
  let cart := get_user_cart db uid
  if cart.isEmpty then (db, Except.error ApiError.emptyCart)
  else
    match validateUserCart db cart with
    | Except.error e => (db, Except.error e)
    | Except.ok _ =>
      let res := create_order db (cartOrderItems db uid) uid dateStr uuid8
      let db2 := decLoopUser res.1 cart
      let db3 := clear_user_cart db2 uid
      (db3, Except.ok res.2)

/-- The customer display name of crud.py `create_order_from_session_cart`:
join the non-empty name parts with a space, strip, and fall back to the first
name when the result is empty. -/
def displayName (firstName : String) (lastName : Option String) : String :=
  let parts := [firstName, lastName.getD ""].filter (fun s => !(s == ""))
  let joined := (String.intercalate " " parts).trim
  if joined == "" then firstName else joined

/-- The validation pass of crud.py `create_order_from_session_cart`
(lines 684-695): per line, the product must exist, be active, and (when
tracked) have stock at least the requested quantity; the first offending line
aborts with the corresponding error before any write. -/
def validateSessionCart (db : DB) : List SessionCartItem → Option ApiError
  | [] => none
  | ci :: rest =>
    match get_product_by_id db ci.product_id with
    | none => some ApiError.productNotFound
    | some p =>
      if p.status ≠ ProductStatus.active then
        some (ApiError.productUnavailable p.name)
      else if p.track_inventory = true ∧ p.stock_quantity < ci.quantity then
        some (ApiError.insufficientStock p.name p.stock_quantity ci.quantity)
      else validateSessionCart db rest

/-- The line-item loop of crud.py `create_order_from_session_cart`
(lines 740-762), run AFTER the order row has been committed: per line it
re-checks tracked stock (raising, with a rollback of the uncommitted writes,
when short), inserts the line-item row, and decrements tracked stock.  The
`fault` parameter injects a storage failure at the write of the given
iteration (e.g. a constraint violation), modelling step-5 persistence
failures; `none` means no write fails. -/
def guestItemLoop (oid : Nat) (fault : Option Nat) :
    DB → List SessionCartItem → Nat → Except ApiError DB
  | db, [], _ => Except.ok db
  | db, ci :: rest, k =>
    match get_product_by_id db ci.product_id with
    | none => Except.error ApiError.productNotFound
    | some p =>
      if p.track_inventory = true ∧ p.stock_quantity < ci.quantity then
        Except.error (ApiError.insufficientStock p.name p.stock_quantity ci.quantity)
      else if fault = some k then
        Except.error ApiError.storageFailure
      else
        let item : OrderItem :=
          { order_id := oid
            product_id := ci.product_id
            variant_id := none
            product_name := p.name
            product_sku := p.sku
            quantity := ci.quantity
            unit_price := p.price
            total_price := p.price * ci.quantity }
        let db1 := { db with order_items := db.order_items ++ [item] }
        let db2 :=
          if p.track_inventory = true then
            setStock db1 ci.product_id (p.stock_quantity - ci.quantity)
          else db1
        guestItemLoop oid fault db2 rest (k + 1)

/-- The raw (unrounded) subtotal of the guest checkout: sum of
quantity times current product price over the session-cart lines
(crud.py line 698). -/
def guestSubtotal (db : DB) (sid : String) : ℚ :=
  ((get_session_cart_items db sid).map (fun ci =>
    (ci.quantity : ℚ) * priceOf db ci.product_id)).sum

/-- The order row built by crud.py `create_order_from_session_cart`
(lines 697-733): rounded subtotal/tax/total, shipping 0 when the raw
subtotal is at least 500 or zero, discount 0, status pending. -/
def guestOrder (db : DB) (sid : String) (firstName : String)
    (lastName : Option String) (t : Nat) : Order :=
  let subtotal := guestSubtotal db sid
  let tax_amount := round2 (subtotal * (18 / 100))
  let shipping_amount : ℚ := if subtotal ≥ 500 ∨ subtotal = 0 then 0 else 50
  let total := round2 (subtotal + tax_amount + shipping_amount)
  { id := db.next_order_id
    order_number := sessionOrderNumber t sid
    user_id := none
    session_id := some sid
    customer_name := some (displayName firstName lastName)
    subtotal := round2 subtotal
    tax_amount := tax_amount
    shipping_amount := shipping_amount
    discount_amount := 0
    total_amount := total
    status := OrderStatus.pending }

/-- The database state right after the first commit of crud.py
`create_order_from_session_cart` (line 736) succeeds — i.e. when the new
row's `order_number` satisfies the UNIQUE constraint of models.py line 249:
the order row is persisted, no line item exists yet, stock and cart are
untouched. -/
def guestCommitted (db : DB) (sid : String) (firstName : String)
    (lastName : Option String) (t : Nat) : DB :=
  { db with
      orders := db.orders ++ [guestOrder db sid firstName lastName t]
      next_order_id := db.next_order_id + 1 }

/-- crud.py `create_order_from_session_cart` (guest checkout, also the whole
observable behaviour of the `POST /orders/session/:sid/checkout` router):
read the session cart, bail out when empty, validate every line before any
write, compute rounded totals (shipping 0 when the subtotal is 0 or at least
500), build the order row and COMMIT it, then run the line-item loop; a
failure inside the loop rolls back only the uncommitted loop writes, leaving
the already-committed order row behind.  On success the session cart is
cleared and everything committed.
`orders.order_number` carries a UNIQUE constraint (models.py line 249, the
schema is created verbatim by `create_all` in main.py line 8), so when the
generated number equals that of an already-persisted order the commit at
crud.py line 736 raises `IntegrityError`: the transaction is rolled back
(nothing of the attempt persists) and the exception propagates — the router
catches only `ValueError` — modelled as `ApiError.integrityError` with the
database unchanged. -/
def create_order_from_session_cart (db : DB) (sid : String)
    (firstName : String) (lastName : Option String) (t : Nat)
    (fault : Option Nat) : DB × Except ApiError Order :=
  let cart := get_session_cart_items db sid
  if cart.isEmpty then (db, Except.error ApiError.emptyCart)
  else
    match validateSessionCart db cart with
    | some e => (db, Except.error e)
    | none =>
      let order := guestOrder db sid firstName lastName t
      if db.orders.any (fun o2 => o2.order_number == order.order_number) then
        (db, Except.error ApiError.integrityError)
      else
        let committed := guestCommitted db sid firstName lastName t
        match guestItemLoop order.id fault committed cart 0 with
        | Except.error e => (committed, Except.error e)
        | Except.ok dbA => (clear_session_cart dbA sid, Except.ok order)

/-- crud.py `update_order_status` restricted to the status column (the
shipped/delivered timestamp stamping touches columns no claim mentions). -/
def update_order_status (db : DB) (oid : Nat) (st : OrderStatus) : DB :=
  let os := db.orders.map (fun o => if o.id == oid then { o with status := st } else o)
  { db with orders := os }

/-- The stock-restore loop of routers/orders.py `cancel_order`
(lines 144-148): for every line item of the order whose product still exists
and tracks inventory, add the purchased quantity back. -/
def restockLoop : DB → List OrderItem → DB
  | db, [] => db
  | db, it :: rest =>
    match get_product_by_id db it.product_id with
    | some p =>
      if p.track_inventory = true then
        restockLoop (setStock db it.product_id (p.stock_quantity + it.quantity)) rest
      else restockLoop db rest
    | none => restockLoop db rest

/-- routers/orders.py `cancel_order`: 404 when the order is absent; 403 when
the requestor neither owns the order nor is an admin; 400 when the status is
outside pending/confirmed; otherwise set the status to cancelled and restore
tracked stock per line item. -/
def cancel_order (db : DB) (oid uid : Nat) (role : UserRole) :
    DB × Except ApiError Unit :=
  match db.orders.find? (fun o => o.id == oid) with
  | none => (db, Except.error ApiError.orderNotFound)
  | some o =>
    if o.user_id ≠ some uid ∧ role ≠ UserRole.admin then
      (db, Except.error ApiError.notAuthorized)
    else if o.status ≠ OrderStatus.pending ∧ o.status ≠ OrderStatus.confirmed then
      (db, Except.error ApiError.invalidStateTransition)
    else
      let db1 := update_order_status db oid OrderStatus.cancelled
      let db2 := restockLoop db1 (orderItemsOf db1 oid)
      (db2, Except.ok ())

/-- Total quantity of a product over the lines of an authenticated cart. -/
def purchasedUser (cart : List CartItem) (pid : Nat) : Int :=
  ((cart.filter (fun ci => ci.product_id == pid)).map (fun ci => ci.quantity)).sum

/-- Total quantity of a product over the lines of a session cart. -/
def purchasedGuest (cart : List SessionCartItem) (pid : Nat) : Int :=
  ((cart.filter (fun ci => ci.product_id == pid)).map (fun ci => ci.quantity)).sum

/-- Total quantity of a product over a list of order line items. -/
def restockedQty (items : List OrderItem) (pid : Nat) : Int :=
  ((items.filter (fun it => it.product_id == pid)).map (fun it => it.quantity)).sum

/-! ## Concrete scenario data -/

/-- An active tracked product, price 100, stock 10. -/
def sampleProduct : Product :=
  { id := 1
    name := ("Tea")
    sku := ("SKU1")
    price := 100
    status := ProductStatus.active
    track_inventory := true
    stock_quantity := 10 }

/-- Guest cart holding 2 units of product 1 (stock 5), used to exhibit the
persistence-fault behaviour. -/
def c1db : DB :=
  { products := [{ sampleProduct with stock_quantity := 5 }]
    cart_items := []
    session_cart := [⟨1, ("sess-abc1"), 1, 2⟩]
    orders := []
    order_items := []
    next_order_id := 1 }

/-- An inactive, untracked product in user 7's cart. -/
def c2db : DB :=
  { products := [{ sampleProduct with status := ProductStatus.inactive, track_inventory := false, stock_quantity := 0 }]
    cart_items := [⟨1, 7, 1, none, 1⟩]
    session_cart := []
    orders := []
    order_items := []
    next_order_id := 1 }

/-- User 7's cart totals exactly 500 (5 units at price 100). -/
def c3db : DB :=
  { products := [sampleProduct]
    cart_items := [⟨1, 7, 1, none, 5⟩]
    session_cart := []
    orders := []
    order_items := []
    next_order_id := 1 }

/-- One unit at price 100.30, whose 18 percent tax has three decimals. -/
def c4db : DB :=
  { products := [{ sampleProduct with price := 1003 / 10 }]
    cart_items := [⟨1, 7, 1, none, 1⟩]
    session_cart := []
    orders := []
    order_items := []
    next_order_id := 1 }

/-- Two cart lines of user 7 for the same tracked product (stock 5) under
different variants, 3 + 4 = 7 units requested. -/
def c5db : DB :=
  { products := [{ sampleProduct with stock_quantity := 5 }]
    cart_items := [⟨1, 7, 1, some 1, 3⟩, ⟨2, 7, 1, some 2, 4⟩]
    session_cart := []
    orders := []
    order_items := []
    next_order_id := 1 }

/-- User 7 owns cart row 1 with quantity 2. -/
def c8db : DB :=
  { products := [sampleProduct]
    cart_items := [⟨1, 7, 1, none, 2⟩]
    session_cart := []
    orders := []
    order_items := []
    next_order_id := 1 }

/-- Guest cart of session "sessabcd" with one unit of product 1. -/
def c9db : DB :=
  { products := [sampleProduct]
    cart_items := []
    session_cart := [⟨1, ("sessabcd"), 1, 1⟩]
    orders := []
    order_items := []
    next_order_id := 1 }

/-- First guest checkout of session "sessabcd" at clock second 1700000000. -/
def c9run1 : DB × Except ApiError Order :=
  create_order_from_session_cart c9db ("sessabcd") ("A") none 1700000000 none

def c2gProduct : Product :=
  { id := 1
    name := ("Lamp")
    sku := ("SKU2")
    price := 10
    status := ProductStatus.inactive
    track_inventory := false
    stock_quantity := 0 }

def w2db : DB :=
  { products := [c2gProduct, { sampleProduct with id := 2, stock_quantity := 5 }]
    cart_items := [⟨1, 7, 2, none, 9⟩, ⟨2, 8, 1, none, 1⟩]
    session_cart := [⟨1, ("sessx"), 1, 1⟩]
    orders := []
    order_items := []
    next_order_id := 1 }

def c6order : Order :=
  { id := 1
    order_number := ("ORD-X")
    user_id := some 7
    session_id := none
    customer_name := none
    subtotal := 200
    tax_amount := 36
    shipping_amount := 50
    discount_amount := 0
    total_amount := 286
    status := OrderStatus.pending }

def c6item : OrderItem :=
  { order_id := 1
    product_id := 1
    variant_id := none
    product_name := ("Tea")
    product_sku := ("SKU1")
    quantity := 2
    unit_price := 100
    total_price := 200 }

def c6db : DB :=
  { products := [sampleProduct]
    cart_items := []
    session_cart := []
    orders := [c6order]
    order_items := [c6item]
    next_order_id := 2 }

def c6dbDelivered : DB :=
  { c6db with orders := [{ c6order with status := OrderStatus.delivered }] }

def c8sdb : DB :=
  { products := [sampleProduct]
    cart_items := []
    session_cart := [⟨1, ("sessu"), 1, 2⟩]
    orders := []
    order_items := []
    next_order_id := 1 }

/-- The line-item rows `crud.create_order` persists: one per requested line
whose product id still resolves. -/
def createOrderItemRows (db : DB) (items : List OrderItemCreate) : List OrderItem :=
  items.filterMap (fun it =>
    (get_product_by_id db it.product_id).map (fun p =>
      ({ order_id := db.next_order_id
         product_id := it.product_id
         variant_id := it.variant_id
         product_name := p.name
         product_sku := p.sku
         quantity := it.quantity
         unit_price := it.unit_price
         total_price := (it.quantity : ℚ) * it.unit_price } : OrderItem)))

def c10db : DB :=
  { products := [sampleProduct]
    cart_items := []
    session_cart := []
    orders := []
    order_items := []
    next_order_id := 1 }

/-! ## Supporting lemmas -/

theorem find?_setStock_self (l : List Product) (pid : Nat) (s : Int) (p : Product)
    (h : l.find? (fun x => x.id == pid) = some p) :
    (l.map (fun x => if x.id == pid then { x with stock_quantity := s } else x)).find?
        (fun x => x.id == pid) = some { p with stock_quantity := s } := by
  have hpred := List.find?_some h
  have hid : p.id = pid := by simpa using hpred
  have hfun : ((fun x : Product => x.id == pid) ∘
      (fun x => if x.id == pid then { x with stock_quantity := s } else x)) =
      (fun x : Product => x.id == pid) := by
    funext x
    by_cases hx : x.id = pid <;> simp [hx]
  rw [List.find?_map, hfun, h]
  simp [hid]

theorem find?_setStock_ne (l : List Product) (pid pid' : Nat) (s : Int) (h : pid' ≠ pid) :
    (l.map (fun x => if x.id == pid then { x with stock_quantity := s } else x)).find?
        (fun x => x.id == pid') = l.find? (fun x => x.id == pid') := by
  have hfun : ((fun x : Product => x.id == pid') ∘
      (fun x => if x.id == pid then { x with stock_quantity := s } else x)) =
      (fun x : Product => x.id == pid') := by
    funext x
    by_cases hx : x.id = pid <;> simp [hx]
  rw [List.find?_map, hfun]
  cases hf : l.find? (fun x => x.id == pid') with
  | none => simp
  | some x =>
    have hx := List.find?_some hf
    have hx' : x.id = pid' := by simpa using hx
    have hne : ¬(x.id = pid) := by rw [hx']; exact h
    simp [hne]

theorem get_product_by_id_setStock_self {db : DB} {pid : Nat} {p : Product} (s : Int)
    (h : get_product_by_id db pid = some p) :
    get_product_by_id (setStock db pid s) pid = some { p with stock_quantity := s } :=
  find?_setStock_self db.products pid s p h

theorem get_product_by_id_setStock_ne {db : DB} {pid pid' : Nat} (s : Int) (h : pid' ≠ pid) :
    get_product_by_id (setStock db pid s) pid' = get_product_by_id db pid' :=
  find?_setStock_ne db.products pid pid' s h


theorem purchasedUser_cons_eq {ci : CartItem} {pid : Nat} (rest : List CartItem)
    (h : ci.product_id = pid) :
    purchasedUser (ci :: rest) pid = ci.quantity + purchasedUser rest pid := by
  simp [purchasedUser, List.filter_cons, h]

theorem purchasedUser_cons_ne {ci : CartItem} {pid : Nat} (rest : List CartItem)
    (h : ¬ci.product_id = pid) :
    purchasedUser (ci :: rest) pid = purchasedUser rest pid := by
  simp [purchasedUser, List.filter_cons, h]

theorem purchasedGuest_cons_eq {ci : SessionCartItem} {pid : Nat} (rest : List SessionCartItem)
    (h : ci.product_id = pid) :
    purchasedGuest (ci :: rest) pid = ci.quantity + purchasedGuest rest pid := by
  simp [purchasedGuest, List.filter_cons, h]

theorem purchasedGuest_cons_ne {ci : SessionCartItem} {pid : Nat} (rest : List SessionCartItem)
    (h : ¬ci.product_id = pid) :
    purchasedGuest (ci :: rest) pid = purchasedGuest rest pid := by
  simp [purchasedGuest, List.filter_cons, h]

theorem decLoopUser_stock (cart : List CartItem) (db : DB) (pid : Nat) (p : Product)
    (hp : get_product_by_id db pid = some p) :
    get_product_by_id (decLoopUser db cart) pid =
      some { p with stock_quantity := p.stock_quantity -
        (if p.track_inventory then purchasedUser cart pid else 0) } := by
  induction cart generalizing db p with
  | nil =>
    simpa [decLoopUser, purchasedUser] using hp
  | cons ci rest ih =>
    rw [decLoopUser]
    cases hg : get_product_by_id db ci.product_id with
    | none =>
      have hne : ¬ci.product_id = pid := by
        intro he; rw [he, hp] at hg; cases hg
      rw [purchasedUser_cons_ne rest hne]
      exact ih db p hp
    | some q =>
      show get_product_by_id
          (if q.track_inventory = true then
            decLoopUser (setStock db ci.product_id (q.stock_quantity - ci.quantity)) rest
          else decLoopUser db rest) pid = _
      by_cases hpid : ci.product_id = pid
      · subst hpid
        have hqp : q = p := by
          rw [hp] at hg; injection hg with h2; exact h2.symm
        subst hqp
        by_cases htr : q.track_inventory = true
        · rw [if_pos htr, purchasedUser_cons_eq rest rfl]
          have hp2 := @get_product_by_id_setStock_self db ci.product_id q
            (q.stock_quantity - ci.quantity) hp
          rw [ih _ _ hp2]
          simp [htr, sub_sub]
        · rw [if_neg htr]
          rw [ih db q hp]
          simp [htr]
      · have hne' : pid ≠ ci.product_id := fun he => hpid he.symm
        rw [purchasedUser_cons_ne rest hpid]
        by_cases htr : q.track_inventory = true
        · rw [if_pos htr]
          exact ih _ p (by rw [get_product_by_id_setStock_ne _ hne']; exact hp)
        · rw [if_neg htr]
          exact ih db p hp


theorem restockedQty_cons_eq {it : OrderItem} {pid : Nat} (rest : List OrderItem)
    (h : it.product_id = pid) :
    restockedQty (it :: rest) pid = it.quantity + restockedQty rest pid := by
  simp [restockedQty, List.filter_cons, h]

theorem restockedQty_cons_ne {it : OrderItem} {pid : Nat} (rest : List OrderItem)
    (h : ¬it.product_id = pid) :
    restockedQty (it :: rest) pid = restockedQty rest pid := by
  simp [restockedQty, List.filter_cons, h]

theorem restockLoop_stock (items : List OrderItem) (db : DB) (pid : Nat) (p : Product)
    (hp : get_product_by_id db pid = some p) :
    get_product_by_id (restockLoop db items) pid =
      some { p with stock_quantity := p.stock_quantity +
        (if p.track_inventory then restockedQty items pid else 0) } := by
  induction items generalizing db p with
  | nil =>
    simpa [restockLoop, restockedQty] using hp
  | cons it rest ih =>
    rw [restockLoop]
    cases hg : get_product_by_id db it.product_id with
    | none =>
      have hne : ¬it.product_id = pid := by
        intro he; rw [he, hp] at hg; cases hg
      rw [restockedQty_cons_ne rest hne]
      exact ih db p hp
    | some q =>
      show get_product_by_id
          (if q.track_inventory = true then
            restockLoop (setStock db it.product_id (q.stock_quantity + it.quantity)) rest
          else restockLoop db rest) pid = _
      by_cases hpid : it.product_id = pid
      · subst hpid
        have hqp : q = p := by
          rw [hp] at hg; injection hg with h2; exact h2.symm
        subst hqp
        by_cases htr : q.track_inventory = true
        · rw [if_pos htr, restockedQty_cons_eq rest rfl]
          have hp2 := @get_product_by_id_setStock_self db it.product_id q
            (q.stock_quantity + it.quantity) hp
          rw [ih _ _ hp2]
          simp [htr, add_assoc]
        · rw [if_neg htr]
          rw [ih db q hp]
          simp [htr]
      · have hne' : pid ≠ it.product_id := fun he => hpid he.symm
        rw [restockedQty_cons_ne rest hpid]
        by_cases htr : q.track_inventory = true
        · rw [if_pos htr]
          exact ih _ p (by rw [get_product_by_id_setStock_ne _ hne']; exact hp)
        · rw [if_neg htr]
          exact ih db p hp

theorem guestItemLoop_ok_stock (cart : List SessionCartItem) (oid : Nat)
    (fault : Option Nat) (k : Nat) (db dbA : DB) (pid : Nat) (p : Product)
    (h : guestItemLoop oid fault db cart k = Except.ok dbA)
    (hp : get_product_by_id db pid = some p) :
    get_product_by_id dbA pid =
      some { p with stock_quantity := p.stock_quantity -
        (if p.track_inventory then purchasedGuest cart pid else 0) }
    ∧ (p.track_inventory = true → 0 ≤ p.stock_quantity →
        0 ≤ p.stock_quantity - purchasedGuest cart pid) := by
  induction cart generalizing db p k with
  | nil =>
    rw [guestItemLoop] at h
    injection h with h2
    subst h2
    constructor
    · simpa [purchasedGuest] using hp
    · intro _ h0
      simpa [purchasedGuest] using h0
  | cons ci rest ih =>
    rw [guestItemLoop] at h
    split at h
    · cases h
    next q hg =>
      split at h
      next hshort => cases h
      next hshort =>
        split at h
        next hff => cases h
        next hff =>
          simp only [] at h
          by_cases hpid : ci.product_id = pid
          · subst hpid
            have hqp : q = p := by
              rw [hp] at hg; injection hg with h2; exact h2.symm
            subst hqp
            by_cases htr : q.track_inventory = true
            · rw [if_pos htr] at h
              have hple : ci.quantity ≤ q.stock_quantity := by
                by_contra hlt
                exact hshort ⟨htr, lt_of_not_le hlt⟩
              have hp1 : get_product_by_id
                  { db with order_items := db.order_items ++
                    [{ order_id := oid, product_id := ci.product_id, variant_id := none,
                       product_name := q.name, product_sku := q.sku, quantity := ci.quantity,
                       unit_price := q.price, total_price := q.price * ci.quantity }] }
                  ci.product_id = some q := hg
              have hp2 := @get_product_by_id_setStock_self _ ci.product_id q
                (q.stock_quantity - ci.quantity) hp1
              have hrec := ih (k + 1) _ _ h hp2
              rw [purchasedGuest_cons_eq rest rfl]
              constructor
              · rw [hrec.1]
                simp [htr, sub_sub]
              · intro _ _
                have h2 := hrec.2 htr (by simpa using hple)
                simpa [sub_sub] using h2
            · rw [if_neg htr] at h
              have hp1 : get_product_by_id
                  { db with order_items := db.order_items ++
                    [{ order_id := oid, product_id := ci.product_id, variant_id := none,
                       product_name := q.name, product_sku := q.sku, quantity := ci.quantity,
                       unit_price := q.price, total_price := q.price * ci.quantity }] }
                  ci.product_id = some q := hg
              have hrec := ih (k + 1) _ _ h hp1
              constructor
              · rw [hrec.1, purchasedGuest_cons_eq rest rfl]
                simp [htr]
              · intro htr' _
                exact absurd htr' htr
          · have hne' : pid ≠ ci.product_id := fun he => hpid he.symm
            rw [purchasedGuest_cons_ne rest hpid]
            by_cases htr : q.track_inventory = true
            · rw [if_pos htr] at h
              have hp2 : get_product_by_id
                  (setStock
                    { db with order_items := db.order_items ++
                      [{ order_id := oid, product_id := ci.product_id, variant_id := none,
                         product_name := q.name, product_sku := q.sku, quantity := ci.quantity,
                         unit_price := q.price, total_price := q.price * ci.quantity }] }
                    ci.product_id (q.stock_quantity - ci.quantity)) pid = some p := by
                rw [get_product_by_id_setStock_ne _ hne']
                exact hp
              exact ih (k + 1) _ _ h hp2
            · rw [if_neg htr] at h
              have hp1 : get_product_by_id
                  { db with order_items := db.order_items ++
                    [{ order_id := oid, product_id := ci.product_id, variant_id := none,
                       product_name := q.name, product_sku := q.sku, quantity := ci.quantity,
                       unit_price := q.price, total_price := q.price * ci.quantity }] }
                  pid = some p := hp
              exact ih (k + 1) _ _ h hp1


theorem validateUserCart_ok_iff (db : DB) (cart : List CartItem) :
    validateUserCart db cart = Except.ok () ↔
      ∀ ci ∈ cart, ∃ p, get_product_by_id db ci.product_id = some p ∧
        (p.track_inventory = true → ci.quantity ≤ p.stock_quantity) := by
  induction cart with
  | nil => simp [validateUserCart]
  | cons ci rest ih =>
    rw [validateUserCart]
    cases hg : get_product_by_id db ci.product_id with
    | none =>
      simp only [List.mem_cons]
      constructor
      · intro h; cases h
      · intro h
        obtain ⟨p, hp, _⟩ := h ci (Or.inl rfl)
        rw [hg] at hp; cases hp
    | some q =>
      show ((if q.track_inventory = true ∧ q.stock_quantity < ci.quantity then
          Except.error (ApiError.insufficientStock q.name q.stock_quantity ci.quantity)
        else validateUserCart db rest) = Except.ok () ↔ _)
      by_cases hc : q.track_inventory = true ∧ q.stock_quantity < ci.quantity
      · rw [if_pos hc]
        simp only [List.mem_cons]
        constructor
        · intro h; cases h
        · intro h
          obtain ⟨p, hp, hle⟩ := h ci (Or.inl rfl)
          rw [hg] at hp
          injection hp with hp2
          subst hp2
          exact absurd (hle hc.1) (not_le.mpr hc.2)
      · rw [if_neg hc, ih]
        simp only [List.mem_cons]
        constructor
        · intro h x hx
          rcases hx with hx | hx
          · subst hx
            refine ⟨q, hg, fun htr => ?_⟩
            by_contra hlt
            exact hc ⟨htr, lt_of_not_le hlt⟩
          · exact h x hx
        · intro h x hx
          exact h x (Or.inr hx)

theorem validateUserCart_cases (db : DB) (cart : List CartItem) :
    validateUserCart db cart = Except.ok () ∨
      ∃ e, validateUserCart db cart = Except.error e := by
  cases h : validateUserCart db cart with
  | ok u => cases u; exact Or.inl rfl
  | error e => exact Or.inr ⟨e, rfl⟩

theorem validateSessionCart_none_iff (db : DB) (cart : List SessionCartItem) :
    validateSessionCart db cart = none ↔
      ∀ ci ∈ cart, ∃ p, get_product_by_id db ci.product_id = some p ∧
        p.status = ProductStatus.active ∧
        (p.track_inventory = true → ci.quantity ≤ p.stock_quantity) := by
  induction cart with
  | nil => simp [validateSessionCart]
  | cons ci rest ih =>
    rw [validateSessionCart]
    cases hg : get_product_by_id db ci.product_id with
    | none =>
      simp only [List.mem_cons]
      constructor
      · intro h; cases h
      · intro h
        obtain ⟨p, hp, _⟩ := h ci (Or.inl rfl)
        rw [hg] at hp; cases hp
    | some q =>
      show ((if q.status ≠ ProductStatus.active then
          some (ApiError.productUnavailable q.name)
        else if q.track_inventory = true ∧ q.stock_quantity < ci.quantity then
          some (ApiError.insufficientStock q.name q.stock_quantity ci.quantity)
        else validateSessionCart db rest) = none ↔ _)
      by_cases hst : q.status ≠ ProductStatus.active
      · rw [if_pos hst]
        simp only [List.mem_cons]
        constructor
        · intro h; cases h
        · intro h
          obtain ⟨p, hp, hact, _⟩ := h ci (Or.inl rfl)
          rw [hg] at hp
          injection hp with hp2
          subst hp2
          exact (hst hact).elim
      · rw [if_neg hst]
        push_neg at hst
        by_cases hc : q.track_inventory = true ∧ q.stock_quantity < ci.quantity
        · rw [if_pos hc]
          simp only [List.mem_cons]
          constructor
          · intro h; cases h
          · intro h
            obtain ⟨p, hp, _, hle⟩ := h ci (Or.inl rfl)
            rw [hg] at hp
            injection hp with hp2
            subst hp2
            exact absurd (hle hc.1) (not_le.mpr hc.2)
        · rw [if_neg hc, ih]
          simp only [List.mem_cons]
          constructor
          · intro h x hx
            rcases hx with hx | hx
            · subst hx
              refine ⟨q, hg, hst, fun htr => ?_⟩
              by_contra hlt
              exact hc ⟨htr, lt_of_not_le hlt⟩
            · exact h x hx
          · intro h x hx
            exact h x (Or.inr hx)

theorem validateSessionCart_cases (db : DB) (cart : List SessionCartItem) :
    validateSessionCart db cart = none ∨
      ∃ e, validateSessionCart db cart = some e := by
  cases h : validateSessionCart db cart with
  | none => exact Or.inl rfl
  | some e => exact Or.inr ⟨e, rfl⟩


theorem get_user_cart_clear (db : DB) (uid : Nat) :
    get_user_cart (clear_user_cart db uid) uid = [] := by
  rw [List.eq_nil_iff_forall_not_mem]
  intro ci hci
  rw [get_user_cart, List.mem_filter] at hci
  have hm := hci.1
  rw [clear_user_cart] at hm
  simp only [List.mem_filter] at hm
  rw [hci.2] at hm
  cases hm.2

theorem get_session_cart_items_clear (db : DB) (sid : String) :
    get_session_cart_items (clear_session_cart db sid) sid = [] := by
  rw [List.eq_nil_iff_forall_not_mem]
  intro ci hci
  rw [get_session_cart_items, List.mem_filter] at hci
  have hm := hci.1
  rw [clear_session_cart] at hm
  simp only [List.mem_filter] at hm
  rw [hci.2] at hm
  cases hm.2

theorem create_order_from_cart_empty {db : DB} {uid : Nat} (d u : String)
    (h : get_user_cart db uid = []) :
    create_order_from_cart db uid d u = (db, Except.error ApiError.emptyCart) := by
  rw [create_order_from_cart, h]
  rfl

theorem create_order_from_cart_invalid {db : DB} {uid : Nat} {e : ApiError} (d u : String)
    (h : validateUserCart db (get_user_cart db uid) = Except.error e) :
    create_order_from_cart db uid d u = (db, Except.error e) := by
  have hne : ¬(get_user_cart db uid).isEmpty = true := by
    intro hemp
    rw [List.isEmpty_iff] at hemp
    rw [hemp] at h
    rw [validateUserCart] at h
    cases h
  rw [create_order_from_cart, if_neg hne, h]

theorem create_order_from_cart_valid {db : DB} {uid : Nat} (d u : String)
    (hne : get_user_cart db uid ≠ [])
    (hv : validateUserCart db (get_user_cart db uid) = Except.ok ()) :
    create_order_from_cart db uid d u =
      (clear_user_cart
        (decLoopUser (create_order db (cartOrderItems db uid) uid d u).1 (get_user_cart db uid))
        uid,
       Except.ok (create_order db (cartOrderItems db uid) uid d u).2) := by
  have hne' : ¬(get_user_cart db uid).isEmpty = true := by
    intro hemp; exact hne (List.isEmpty_iff.mp hemp)
  rw [create_order_from_cart, if_neg hne', hv]

theorem create_order_from_cart_ok {db db' : DB} {uid : Nat} {d u : String} {o : Order}
    (h : create_order_from_cart db uid d u = (db', Except.ok o)) :
    get_user_cart db uid ≠ []
    ∧ validateUserCart db (get_user_cart db uid) = Except.ok ()
    ∧ o = (create_order db (cartOrderItems db uid) uid d u).2
    ∧ db' = clear_user_cart
        (decLoopUser (create_order db (cartOrderItems db uid) uid d u).1 (get_user_cart db uid))
        uid := by
  by_cases hemp : get_user_cart db uid = []
  · rw [create_order_from_cart_empty d u hemp] at h
    injection h with h1 h2
    cases h2
  · rcases validateUserCart_cases db (get_user_cart db uid) with hv | ⟨e, hv⟩
    · have := create_order_from_cart_valid d u hemp hv
      rw [this] at h
      injection h with h1 h2
      injection h2 with h3
      exact ⟨hemp, hv, h3.symm, h1.symm⟩
    · rw [create_order_from_cart_invalid d u hv] at h
      injection h with h1 h2
      cases h2

theorem guest_checkout_empty {db : DB} {sid : String} (f : String) (l : Option String)
    (t : Nat) (fault : Option Nat)
    (h : get_session_cart_items db sid = []) :
    create_order_from_session_cart db sid f l t fault = (db, Except.error ApiError.emptyCart) := by
  rw [create_order_from_session_cart, h]
  rfl

theorem guest_checkout_invalid {db : DB} {sid : String} {e : ApiError} (f : String)
    (l : Option String) (t : Nat) (fault : Option Nat)
    (h : validateSessionCart db (get_session_cart_items db sid) = some e) :
    create_order_from_session_cart db sid f l t fault = (db, Except.error e) := by
  have hne : ¬(get_session_cart_items db sid).isEmpty = true := by
    intro hemp
    rw [List.isEmpty_iff] at hemp
    rw [hemp] at h
    rw [validateSessionCart] at h
    cases h
  rw [create_order_from_session_cart, if_neg hne, h]

theorem guest_checkout_ok {db db' : DB} {sid : String} {f : String} {l : Option String}
    {t : Nat} {fault : Option Nat} {o : Order}
    (h : create_order_from_session_cart db sid f l t fault = (db', Except.ok o)) :
    get_session_cart_items db sid ≠ []
    ∧ validateSessionCart db (get_session_cart_items db sid) = none
    ∧ db.orders.any
        (fun o2 => o2.order_number == (guestOrder db sid f l t).order_number) = false
    ∧ o = guestOrder db sid f l t
    ∧ ∃ dbA, guestItemLoop (guestOrder db sid f l t).id fault (guestCommitted db sid f l t)
        (get_session_cart_items db sid) 0 = Except.ok dbA
      ∧ db' = clear_session_cart dbA sid := by
  by_cases hemp : get_session_cart_items db sid = []
  · rw [guest_checkout_empty f l t fault hemp] at h
    injection h with h1 h2
    cases h2
  · rcases validateSessionCart_cases db (get_session_cart_items db sid) with hv | ⟨e, hv⟩
    · have hne' : ¬(get_session_cart_items db sid).isEmpty = true := by
        intro he; exact hemp (List.isEmpty_iff.mp he)
      rw [create_order_from_session_cart, if_neg hne', hv] at h
      have h2 : (if db.orders.any
            (fun o2 => o2.order_number == (guestOrder db sid f l t).order_number) = true then
          (db, (Except.error ApiError.integrityError : Except ApiError Order))
        else
          match guestItemLoop (guestOrder db sid f l t).id fault
              (guestCommitted db sid f l t) (get_session_cart_items db sid) 0 with
          | Except.error e => (guestCommitted db sid f l t, Except.error e)
          | Except.ok dbA => (clear_session_cart dbA sid,
              Except.ok (guestOrder db sid f l t))) = (db', Except.ok o) := h
      by_cases hdup : db.orders.any
          (fun o2 => o2.order_number == (guestOrder db sid f l t).order_number) = true
      · rw [if_pos hdup] at h2
        injection h2 with h3 h4
        cases h4
      · rw [if_neg hdup] at h2
        cases hloop : guestItemLoop (guestOrder db sid f l t).id fault
            (guestCommitted db sid f l t) (get_session_cart_items db sid) 0 with
        | error e =>
          rw [hloop] at h2
          injection h2 with h3 h4
          cases h4
        | ok dbA =>
          rw [hloop] at h2
          injection h2 with h3 h4
          injection h4 with h5
          exact ⟨hemp, hv, Bool.eq_false_iff.mpr hdup, h5.symm, dbA, rfl, h3.symm⟩
    · rw [guest_checkout_invalid f l t fault hv] at h
      injection h with h1 h2
      cases h2


theorem round2_abs_sub (q : ℚ) : |round2 q - q| ≤ 1 / 200 := by
  rw [round2]
  have h := abs_sub_round (q * 100)
  rw [abs_sub_comm] at h
  have he : ((round (q * 100) : ℤ) : ℚ) / 100 - q = (((round (q * 100) : ℤ) : ℚ) - q * 100) / 100 := by
    ring
  rw [he, abs_div, abs_of_pos (by norm_num : (0:ℚ) < 100)]
  calc |((round (q * 100) : ℤ) : ℚ) - q * 100| / 100 ≤ (1 / 2) / 100 := by gcongr
    _ = 1 / 200 := by norm_num

theorem round2_idem (q : ℚ) : round2 (round2 q) = round2 q := by
  rw [round2, round2]
  rw [div_mul_cancel₀ _ (by norm_num : (100:ℚ) ≠ 0)]
  rw [round_intCast]

theorem round2_zero : round2 0 = 0 := by
  rw [round2]
  norm_num

theorem round2_fifty : round2 50 = 50 := by
  rw [round2]
  norm_num [round_eq]

theorem purchasedUser_eq_zero {cart : List CartItem} {pid : Nat}
    (h : pid ∉ cart.map (fun x => x.product_id)) :
    purchasedUser cart pid = 0 := by
  rw [purchasedUser]
  have hf : cart.filter (fun ci => ci.product_id == pid) = [] := by
    rw [List.filter_eq_nil_iff]
    intro x hx
    simp only [beq_iff_eq]
    intro he
    exact h (he ▸ List.mem_map_of_mem _ hx)
  rw [hf]
  rfl

theorem purchasedUser_eq_of_nodup {cart : List CartItem} {ci : CartItem}
    (hnd : (cart.map (fun x => x.product_id)).Nodup) (hmem : ci ∈ cart) :
    purchasedUser cart ci.product_id = ci.quantity := by
  induction cart with
  | nil => cases hmem
  | cons a rest ih =>
    rw [List.map_cons, List.nodup_cons] at hnd
    rcases List.mem_cons.mp hmem with he | hmem2
    · subst he
      rw [purchasedUser_cons_eq rest rfl]
      rw [purchasedUser_eq_zero hnd.1, add_zero]
    · have hne : ¬a.product_id = ci.product_id := by
        intro he
        exact hnd.1 (he ▸ List.mem_map_of_mem _ hmem2)
      rw [purchasedUser_cons_ne rest hne]
      exact ih hnd.2 hmem2

theorem get_product_by_id_create_order (db : DB) (items : List OrderItemCreate)
    (uid : Nat) (d u : String) (pid : Nat) :
    get_product_by_id (create_order db items uid d u).1 pid = get_product_by_id db pid := rfl

theorem get_product_by_id_clear_user (db : DB) (uid : Nat) (pid : Nat) :
    get_product_by_id (clear_user_cart db uid) pid = get_product_by_id db pid := rfl

theorem get_product_by_id_clear_session (db : DB) (sid : String) (pid : Nat) :
    get_product_by_id (clear_session_cart db sid) pid = get_product_by_id db pid := rfl

theorem get_product_by_id_guestCommitted (db : DB) (sid : String) (f : String)
    (l : Option String) (t : Nat) (pid : Nat) :
    get_product_by_id (guestCommitted db sid f l t) pid = get_product_by_id db pid := rfl

theorem find?_update_status_self (l : List Order) (oid : Nat) (st : OrderStatus) (o : Order)
    (h : l.find? (fun x => x.id == oid) = some o) :
    (l.map (fun x => if x.id == oid then { x with status := st } else x)).find?
        (fun x => x.id == oid) = some { o with status := st } := by
  have hpred := List.find?_some h
  have hid : o.id = oid := by simpa using hpred
  have hfun : ((fun x : Order => x.id == oid) ∘
      (fun x => if x.id == oid then { x with status := st } else x)) =
      (fun x : Order => x.id == oid) := by
    funext x
    by_cases hx : x.id = oid <;> simp [hx]
  rw [List.find?_map, hfun, h]
  simp [hid]

theorem restockLoop_orders (items : List OrderItem) (db : DB) :
    (restockLoop db items).orders = db.orders := by
  induction items generalizing db with
  | nil => rfl
  | cons it rest ih =>
    rw [restockLoop]
    cases hg : get_product_by_id db it.product_id with
    | none => exact ih db
    | some q =>
      show (if q.track_inventory = true then
          restockLoop (setStock db it.product_id (q.stock_quantity + it.quantity)) rest
        else restockLoop db rest).orders = _
      by_cases htr : q.track_inventory = true
      · rw [if_pos htr, ih]
        rfl
      · rw [if_neg htr, ih]


/-! ## Claim theorems: concrete refutations -/

/-- Claim C1: the spec demands that a persistence-phase failure after some
writes roll back every write of the checkout, so that no order row is ever
persisted with a mismatched set of line items.  The code commits the order
row BEFORE the line-item loop, so a storage failure at the very first
line-item write (fault index 0) leaves a committed order row with zero line
items while the cart still has its line and stock is untouched — the exact
forbidden outcome.  This theorem evaluates the faulty run at that input. -/
theorem c1_fault_leaves_orphan_order :
    (create_order_from_session_cart c1db ("sess-abc1") ("A") none 1700000000 (some 0)).2
      = Except.error ApiError.storageFailure
    ∧ (create_order_from_session_cart c1db ("sess-abc1") ("A") none 1700000000 (some 0)).1.orders.length = 1
    ∧ (create_order_from_session_cart c1db ("sess-abc1") ("A") none 1700000000 (some 0)).1.order_items = []
    ∧ stockOf (create_order_from_session_cart c1db ("sess-abc1") ("A") none 1700000000 (some 0)).1 1 = some 5
    ∧ get_session_cart_items (create_order_from_session_cart c1db ("sess-abc1") ("A") none 1700000000 (some 0)).1 ("sess-abc1") ≠ [] := by
  simp [create_order_from_session_cart, c1db, get_session_cart_items, validateSessionCart,
        get_product_by_id, sampleProduct, priceOf, guestItemLoop, clear_session_cart, setStock,
        sessionOrderNumber, displayName, stockOf, guestOrder, guestCommitted, guestSubtotal]

/-- Claim C2, counterexample: the claim requires every checkout to fail with
`ProductUnavailableError` when a cart line's product is not active; but the
authenticated checkout succeeds on a cart whose only product is inactive,
creating an order. -/
theorem c2_counterexample :
    (∀ p, p ∈ c2db.products → p.status = ProductStatus.inactive)
    ∧ (create_order_from_cart c2db 7 ("20251012") ("AAAAAAAA")).2.isOk = true
    ∧ (create_order_from_cart c2db 7 ("20251012") ("AAAAAAAA")).1.orders.length = 1 := by
  simp [create_order_from_cart, c2db, get_user_cart, validateUserCart, get_product_by_id,
        sampleProduct, create_order, priceOf, decLoopUser, clear_user_cart, setStock,
        userOrderNumber, Except.isOk, Except.toBool]

/-- Claim C3, counterexample: the claim requires a subtotal of exactly 500 to
ship free on every checkout; but an authenticated checkout whose subtotal is
exactly 500 stores shipping 50. -/
theorem c3_counterexample :
    (create_order_from_cart c3db 7 ("20251012") ("AAAAAAAA")).2.toOption.map
        (fun o => (o.subtotal, o.shipping_amount)) = some (500, 50) := by
  simp [create_order_from_cart, c3db, get_user_cart, validateUserCart, get_product_by_id,
        sampleProduct, create_order, priceOf, decLoopUser, clear_user_cart, setStock,
        userOrderNumber, Except.toOption, cartOrderItems]
  norm_num

/-- Claim C4, counterexample: the claim requires every stored monetary field
to be rounded to 2 decimal places at storage; but `crud.create_order` stores
the tax of a 100.30 subtotal as 18.054 (= 9027/500), unrounded. -/
theorem c4_counterexample :
    (create_order_from_cart c4db 7 ("20251012") ("AAAAAAAA")).2.toOption.map
        (fun o => o.tax_amount) = some (9027 / 500)
    ∧ round2 (9027 / 500) ≠ ((9027 / 500 : ℚ)) := by
  constructor
  · simp [create_order_from_cart, c4db, get_user_cart, validateUserCart, get_product_by_id,
          sampleProduct, create_order, priceOf, decLoopUser, clear_user_cart, setStock,
          userOrderNumber, Except.toOption, cartOrderItems]
    norm_num
  · simp only [round2]
    norm_num [round_eq]

/-- Claim C5, counterexample: the claim forbids a successful checkout from
driving tracked stock negative; but with two cart lines for the same tracked
product (stock 5) under different variants, requesting 3 and 4 units, the
authenticated checkout succeeds and leaves the stock at -2. -/
theorem c5_counterexample :
    (∀ p, p ∈ c5db.products → p.track_inventory = true)
    ∧ (create_order_from_cart c5db 7 ("20251012") ("AAAAAAAA")).2.isOk = true
    ∧ stockOf (create_order_from_cart c5db 7 ("20251012") ("AAAAAAAA")).1 1 = some (-2) := by
  simp [create_order_from_cart, c5db, get_user_cart, validateUserCart, get_product_by_id,
        sampleProduct, create_order, priceOf, decLoopUser, clear_user_cart, setStock,
        stockOf, Except.isOk, Except.toBool]

/-- Claim C8, counterexample: the claim requires `setItemQuantity` with
quantity ≤ 0 to delete the line on the authenticated cart as well; but the
authenticated endpoint rejects quantity 0 with an error and leaves the
database — including the cart row — unchanged. -/
theorem c8_counterexample :
    (get_user_cart c8db 7).length = 1
    ∧ update_cart_item_api c8db 7 1 0 = (c8db, Except.error ApiError.invalidQuantity) := by
  constructor
  · simp [get_user_cart, c8db]
  · rfl

/-- Claim C7: checkout on an empty cart fails with EmptyCartError leaving the
state unchanged and creating no order; after every successful checkout the
cart is empty, so an immediate second checkout fails with EmptyCartError and
never creates a duplicate order — on both the authenticated and guest path. -/
theorem c7_empty_cart_idempotent (db db' : DB) (uid : Nat) (d u : String) (o : Order)
    (sid f : String) (l : Option String) (t : Nat) (fault : Option Nat) (o2 : Order) :
    (get_user_cart db uid = [] →
      create_order_from_cart db uid d u = (db, Except.error ApiError.emptyCart))
    ∧ (create_order_from_cart db uid d u = (db', Except.ok o) →
        get_user_cart db' uid = []
        ∧ ∀ d2 u2, create_order_from_cart db' uid d2 u2
            = (db', Except.error ApiError.emptyCart))
    ∧ (get_session_cart_items db sid = [] →
        create_order_from_session_cart db sid f l t fault
          = (db, Except.error ApiError.emptyCart))
    ∧ (create_order_from_session_cart db sid f l t fault = (db', Except.ok o2) →
        get_session_cart_items db' sid = []
        ∧ ∀ f2 l2 t2 fault2, create_order_from_session_cart db' sid f2 l2 t2 fault2
            = (db', Except.error ApiError.emptyCart)) := by
  refine ⟨fun h => create_order_from_cart_empty d u h, fun h => ?_,
          fun h => guest_checkout_empty f l t fault h, fun h => ?_⟩
  · obtain ⟨_, _, _, hdb⟩ := create_order_from_cart_ok h
    subst hdb
    exact ⟨get_user_cart_clear _ _,
      fun d2 u2 => create_order_from_cart_empty d2 u2 (get_user_cart_clear _ _)⟩
  · obtain ⟨_, _, _, _, dbA, hloop, hdb⟩ := guest_checkout_ok h
    subst hdb
    exact ⟨get_session_cart_items_clear _ _,
      fun f2 l2 t2 fault2 => guest_checkout_empty f2 l2 t2 fault2
        (get_session_cart_items_clear _ _)⟩

/-- Witness for C7 at concrete inputs: user 9 has an empty cart, and the
session cart of "sessabcd" is empty right after its successful checkout. -/
theorem c7_witness :
    create_order_from_cart c9db 9 ("20251012") ("AAAAAAAA")
      = (c9db, Except.error ApiError.emptyCart)
    ∧ create_order_from_session_cart c9run1.1 ("sessabcd") ("B") none 1700000001 none
      = (c9run1.1, Except.error ApiError.emptyCart) := by
  have H := c7_empty_cart_idempotent c9db c9run1.1 9 ("20251012") ("AAAAAAAA")
      (guestOrder c9db ("sessabcd") ("A") none 1700000000) ("sessabcd") ("A") none
      1700000000 none (guestOrder c9db ("sessabcd") ("A") none 1700000000)
  refine ⟨H.1 (by rfl), ?_⟩
  have h2 := H.2.2.2 (by rfl)
  exact h2.2 ("B") none 1700000001 none

theorem create_order_snd_subtotal (db : DB) (items : List OrderItemCreate)
    (uid : Nat) (d u : String) :
    (create_order db items uid d u).2.subtotal
      = (items.map (fun it => (it.quantity : ℚ) * it.unit_price)).sum := rfl

theorem create_order_snd_tax (db : DB) (items : List OrderItemCreate)
    (uid : Nat) (d u : String) :
    (create_order db items uid d u).2.tax_amount
      = (items.map (fun it => (it.quantity : ℚ) * it.unit_price)).sum * (18 / 100) := rfl

theorem create_order_snd_shipping (db : DB) (items : List OrderItemCreate)
    (uid : Nat) (d u : String) :
    (create_order db items uid d u).2.shipping_amount
      = if (items.map (fun it => (it.quantity : ℚ) * it.unit_price)).sum > 500 then 0
        else 50 := rfl

theorem create_order_snd_discount (db : DB) (items : List OrderItemCreate)
    (uid : Nat) (d u : String) :
    (create_order db items uid d u).2.discount_amount = 0 := rfl

theorem create_order_snd_total (db : DB) (items : List OrderItemCreate)
    (uid : Nat) (d u : String) :
    (create_order db items uid d u).2.total_amount
      = (items.map (fun it => (it.quantity : ℚ) * it.unit_price)).sum
        + (items.map (fun it => (it.quantity : ℚ) * it.unit_price)).sum * (18 / 100)
        + (if (items.map (fun it => (it.quantity : ℚ) * it.unit_price)).sum > 500 then 0
           else 50) := rfl

theorem guestOrder_subtotal (db : DB) (sid f : String) (l : Option String) (t : Nat) :
    (guestOrder db sid f l t).subtotal = round2 (guestSubtotal db sid) := rfl

theorem guestOrder_tax (db : DB) (sid f : String) (l : Option String) (t : Nat) :
    (guestOrder db sid f l t).tax_amount
      = round2 (guestSubtotal db sid * (18 / 100)) := rfl

theorem guestOrder_shipping (db : DB) (sid f : String) (l : Option String) (t : Nat) :
    (guestOrder db sid f l t).shipping_amount
      = if guestSubtotal db sid ≥ 500 ∨ guestSubtotal db sid = 0 then 0 else 50 := rfl

theorem guestOrder_discount (db : DB) (sid f : String) (l : Option String) (t : Nat) :
    (guestOrder db sid f l t).discount_amount = 0 := rfl

theorem guestOrder_total (db : DB) (sid f : String) (l : Option String) (t : Nat) :
    (guestOrder db sid f l t).total_amount
      = round2 (guestSubtotal db sid + round2 (guestSubtotal db sid * (18 / 100))
          + (if guestSubtotal db sid ≥ 500 ∨ guestSubtotal db sid = 0 then 0 else 50)) := rfl

theorem get_cart_summary_shipping (db : DB) (uid : Nat) :
    (get_cart_summary db uid).shipping_amount
      = if userCartSubtotal db uid = 0 ∨ userCartSubtotal db uid ≥ 500 then 0 else 50 := rfl

theorem get_session_cart_shipping (db : DB) (sid : String) :
    (get_session_cart db sid).shipping_amount
      = if sessionCartSubtotal db sid ≥ 500 ∨ sessionCartSubtotal db sid = 0 then 0
        else 50 := rfl

/-- Claim C3 (amended): the cart summaries and the guest checkout ship free
exactly when the subtotal is 0 or at least 500; the registered-user order
creation (hence the authenticated checkout) ships free exactly when the
stored subtotal is strictly above 500, so a subtotal of exactly 500 pays the
flat 50 there. -/
theorem c3_shipping_spec (db db' : DB) (uid : Nat) (d u : String) (o : Order)
    (sid f : String) (l : Option String) (t : Nat) (fault : Option Nat) (o2 : Order) :
    (create_order_from_cart db uid d u = (db', Except.ok o) →
      (o.shipping_amount = 0 ↔ 500 < o.subtotal))
    ∧ (create_order_from_session_cart db sid f l t fault = (db', Except.ok o2) →
      (o2.shipping_amount = 0 ↔
        (guestSubtotal db sid ≥ 500 ∨ guestSubtotal db sid = 0)))
    ∧ ((get_cart_summary db uid).shipping_amount = 0 ↔
        (userCartSubtotal db uid = 0 ∨ userCartSubtotal db uid ≥ 500))
    ∧ ((get_session_cart db sid).shipping_amount = 0 ↔
        (sessionCartSubtotal db sid ≥ 500 ∨ sessionCartSubtotal db sid = 0)) := by
  refine ⟨fun h => ?_, fun h => ?_, ?_, ?_⟩
  · obtain ⟨_, _, ho, _⟩ := create_order_from_cart_ok h
    subst ho
    rw [create_order_snd_shipping, create_order_snd_subtotal]
    by_cases h5 : ((cartOrderItems db uid).map
        (fun it => (it.quantity : ℚ) * it.unit_price)).sum > 500
    · simp [h5]
    · simp [h5]
  · obtain ⟨_, _, _, ho, _⟩ := guest_checkout_ok h
    subst ho
    rw [guestOrder_shipping]
    by_cases h5 : guestSubtotal db sid ≥ 500 ∨ guestSubtotal db sid = 0
    · simp [h5]
    · simp [h5]
  · rw [get_cart_summary_shipping]
    by_cases h5 : userCartSubtotal db uid = 0 ∨ userCartSubtotal db uid ≥ 500
    · simp [h5]
    · simp [h5]
  · rw [get_session_cart_shipping]
    by_cases h5 : sessionCartSubtotal db sid ≥ 500 ∨ sessionCartSubtotal db sid = 0
    · simp [h5]
    · simp [h5]

/-- Claim C4 (amended): total = subtotal + tax + shipping - discount holds at
creation on both paths (exactly for registered-user orders, within 1/100 for
guest orders whose components are rounded separately), and the guest-checkout
monetary fields are stored rounded to 2 decimal places; the registered-user
`create_order` stores its fields unrounded (see the counterexample). -/
theorem c4_totals_spec (db db' : DB) (uid : Nat) (d u : String) (o : Order)
    (sid f : String) (l : Option String) (t : Nat) (fault : Option Nat) (o2 : Order) :
    (create_order_from_cart db uid d u = (db', Except.ok o) →
      o.total_amount = o.subtotal + o.tax_amount + o.shipping_amount - o.discount_amount)
    ∧ (create_order_from_session_cart db sid f l t fault = (db', Except.ok o2) →
      |o2.total_amount -
          (o2.subtotal + o2.tax_amount + o2.shipping_amount - o2.discount_amount)| ≤ 1 / 100
      ∧ round2 o2.subtotal = o2.subtotal
      ∧ round2 o2.tax_amount = o2.tax_amount
      ∧ round2 o2.shipping_amount = o2.shipping_amount
      ∧ round2 o2.total_amount = o2.total_amount) := by
  constructor
  · intro h
    obtain ⟨_, _, ho, _⟩ := create_order_from_cart_ok h
    subst ho
    rw [create_order_snd_total, create_order_snd_subtotal, create_order_snd_tax,
        create_order_snd_shipping, create_order_snd_discount, sub_zero]
  · intro h
    obtain ⟨_, _, _, ho, _⟩ := guest_checkout_ok h
    subst ho
    rw [guestOrder_total, guestOrder_subtotal, guestOrder_tax, guestOrder_shipping,
        guestOrder_discount]
    have hS := abs_le.mp (round2_abs_sub (guestSubtotal db sid))
    have hX := abs_le.mp (round2_abs_sub (guestSubtotal db sid
      + round2 (guestSubtotal db sid * (18 / 100))
      + (if guestSubtotal db sid ≥ 500 ∨ guestSubtotal db sid = 0 then (0:ℚ) else 50)))
    refine ⟨?_, round2_idem _, round2_idem _, ?_, round2_idem _⟩
    · rw [abs_le]
      constructor
      · linarith [hS.1, hS.2, hX.1, hX.2]
      · linarith [hS.1, hS.2, hX.1, hX.2]
    · by_cases h5 : guestSubtotal db sid ≥ 500 ∨ guestSubtotal db sid = 0
      · rw [if_pos h5, round2_zero]
      · rw [if_neg h5, round2_fifty]


/-- Witness for the amended C3 at concrete inputs: the exactly-500 cart of
`c3db` and the guest cart of `c9db`. -/
theorem c3_witness :
    ((create_order c3db (cartOrderItems c3db 7) 7 ("20251012") ("AAAAAAAA")).2.shipping_amount
        = 0 ↔
      500 < (create_order c3db (cartOrderItems c3db 7) 7 ("20251012") ("AAAAAAAA")).2.subtotal)
    ∧ ((guestOrder c9db ("sessabcd") ("A") none 1700000000).shipping_amount = 0 ↔
        (guestSubtotal c9db ("sessabcd") ≥ 500 ∨ guestSubtotal c9db ("sessabcd") = 0))
    ∧ ((get_cart_summary c3db 7).shipping_amount = 0 ↔
        (userCartSubtotal c3db 7 = 0 ∨ userCartSubtotal c3db 7 ≥ 500)) := by
  have H1 := c3_shipping_spec c3db ((create_order_from_cart c3db 7 ("20251012") ("AAAAAAAA")).1)
    7 ("20251012") ("AAAAAAAA")
    ((create_order c3db (cartOrderItems c3db 7) 7 ("20251012") ("AAAAAAAA")).2)
    ("x") ("A") none 0 none (guestOrder c9db ("sessabcd") ("A") none 1700000000)
  have H2 := c3_shipping_spec c9db c9run1.1 0 ("d") ("u")
    (guestOrder c9db ("sessabcd") ("A") none 1700000000) ("sessabcd") ("A") none
    1700000000 none (guestOrder c9db ("sessabcd") ("A") none 1700000000)
  exact ⟨H1.1 rfl, H2.2.1 rfl, H1.2.2.1⟩

/-- Witness for the amended C4 at concrete inputs. -/
theorem c4_witness :
    (create_order c3db (cartOrderItems c3db 7) 7 ("20251012") ("AAAAAAAA")).2.total_amount
      = (create_order c3db (cartOrderItems c3db 7) 7 ("20251012") ("AAAAAAAA")).2.subtotal
        + (create_order c3db (cartOrderItems c3db 7) 7 ("20251012") ("AAAAAAAA")).2.tax_amount
        + (create_order c3db (cartOrderItems c3db 7) 7 ("20251012") ("AAAAAAAA")).2.shipping_amount
        - (create_order c3db (cartOrderItems c3db 7) 7 ("20251012") ("AAAAAAAA")).2.discount_amount
    ∧ round2 (guestOrder c9db ("sessabcd") ("A") none 1700000000).tax_amount
      = (guestOrder c9db ("sessabcd") ("A") none 1700000000).tax_amount := by
  have H1 := c4_totals_spec c3db ((create_order_from_cart c3db 7 ("20251012") ("AAAAAAAA")).1)
    7 ("20251012") ("AAAAAAAA")
    ((create_order c3db (cartOrderItems c3db 7) 7 ("20251012") ("AAAAAAAA")).2)
    ("x") ("A") none 0 none (guestOrder c9db ("sessabcd") ("A") none 1700000000)
  have H2 := c4_totals_spec c9db c9run1.1 0 ("d") ("u")
    (guestOrder c9db ("sessabcd") ("A") none 1700000000) ("sessabcd") ("A") none
    1700000000 none (guestOrder c9db ("sessabcd") ("A") none 1700000000)
  exact ⟨H1.1 rfl, (H2.2 rfl).2.2.1⟩


/-- Claim C2 (amended): guest checkout validates every line (existence,
active status, tracked stock) before any write and on any validation failure
returns the corresponding error with the database unchanged; the
authenticated cart checkout runs only its stock check before any write
(failing with the database unchanged), and a cart whose products all exist
with sufficient tracked stock checks out successfully even when a product is
inactive — missing/inactive products are not rejected on that path. -/
theorem c2_validation_spec (db : DB) (sid f : String) (l : Option String) (t : Nat)
    (fault : Option Nat) (uid : Nat) (d u : String) :
    (∀ e, validateSessionCart db (get_session_cart_items db sid) = some e →
      create_order_from_session_cart db sid f l t fault = (db, Except.error e))
    ∧ ((∃ ci ∈ get_session_cart_items db sid,
          ∀ p, ¬(get_product_by_id db ci.product_id = some p
            ∧ p.status = ProductStatus.active
            ∧ (p.track_inventory = true → ci.quantity ≤ p.stock_quantity))) →
      ∃ e, create_order_from_session_cart db sid f l t fault = (db, Except.error e))
    ∧ (∀ e, validateUserCart db (get_user_cart db uid) = Except.error e →
      create_order_from_cart db uid d u = (db, Except.error e))
    ∧ ((∃ ci ∈ get_user_cart db uid, ∃ p, get_product_by_id db ci.product_id = some p
          ∧ p.track_inventory = true ∧ p.stock_quantity < ci.quantity) →
      ∃ e, create_order_from_cart db uid d u = (db, Except.error e))
    ∧ (get_user_cart db uid ≠ [] →
      (∀ ci ∈ get_user_cart db uid, ∃ p, get_product_by_id db ci.product_id = some p
        ∧ (p.track_inventory = true → ci.quantity ≤ p.stock_quantity)) →
      ∃ o, (create_order_from_cart db uid d u).2 = Except.ok o) := by
  refine ⟨fun e hv => guest_checkout_invalid f l t fault hv, fun hbad => ?_,
    fun e hv => create_order_from_cart_invalid d u hv, fun hbad => ?_, fun hne hgood => ?_⟩
  · rcases validateSessionCart_cases db (get_session_cart_items db sid) with hv | ⟨e, hv⟩
    · obtain ⟨ci, hci, hforall⟩ := hbad
      obtain ⟨p, hp, hact, hstock⟩ := (validateSessionCart_none_iff db _).mp hv ci hci
      exact absurd ⟨hp, hact, hstock⟩ (hforall p)
    · exact ⟨e, guest_checkout_invalid f l t fault hv⟩
  · rcases validateUserCart_cases db (get_user_cart db uid) with hv | ⟨e, hv⟩
    · obtain ⟨ci, hci, p, hp, htr, hlt⟩ := hbad
      obtain ⟨p2, hp2, hle⟩ := (validateUserCart_ok_iff db _).mp hv ci hci
      rw [hp] at hp2
      injection hp2 with hp3
      subst hp3
      exact absurd (hle htr) (not_le.mpr hlt)
    · exact ⟨e, create_order_from_cart_invalid d u hv⟩
  · have hv := (validateUserCart_ok_iff db (get_user_cart db uid)).mpr hgood
    rw [create_order_from_cart_valid d u hne hv]
    exact ⟨_, rfl⟩


/-- Witness for the amended C2 at concrete inputs: an inactive guest-cart
product is rejected leaving the state unchanged, an insufficient tracked
line on the authenticated path is rejected leaving the state unchanged, and
an inactive (untracked) product sails through the authenticated checkout. -/
theorem c2_witness :
    create_order_from_session_cart w2db ("sessx") ("A") none 5 none
      = (w2db, Except.error (ApiError.productUnavailable ("Lamp")))
    ∧ create_order_from_cart w2db 7 ("20251012") ("AAAAAAAA")
      = (w2db, Except.error (ApiError.insufficientStock ("Tea") 5 9))
    ∧ ∃ o, (create_order_from_cart w2db 8 ("20251012") ("AAAAAAAA")).2 = Except.ok o := by
  have H7 := c2_validation_spec w2db ("sessx") ("A") none 5 none 7 ("20251012") ("AAAAAAAA")
  have H8 := c2_validation_spec w2db ("sessx") ("A") none 5 none 8 ("20251012") ("AAAAAAAA")
  refine ⟨H7.1 _ rfl, H7.2.2.1 _ rfl, H8.2.2.2.2 (by decide) ?_⟩
  intro ci hci
  have hc : ci = (⟨2, 8, 1, none, 1⟩ : CartItem) := by
    simpa [get_user_cart, w2db, List.filter] using hci
  subst hc
  refine ⟨c2gProduct, rfl, fun htr => ?_⟩
  cases htr


theorem cancel_order_found {db : DB} {oid uid : Nat} {role : UserRole} {o : Order}
    (hfind : db.orders.find? (fun x => x.id == oid) = some o) :
    cancel_order db oid uid role =
      (if o.user_id ≠ some uid ∧ role ≠ UserRole.admin then
        (db, Except.error ApiError.notAuthorized)
       else if o.status ≠ OrderStatus.pending ∧ o.status ≠ OrderStatus.confirmed then
        (db, Except.error ApiError.invalidStateTransition)
       else
        (restockLoop (update_order_status db oid OrderStatus.cancelled)
          (orderItemsOf (update_order_status db oid OrderStatus.cancelled) oid),
         Except.ok ())) := by
  rw [cancel_order, hfind]

/-- Claim C6: cancel succeeds exactly when the requestor owns the order or is
an admin and the status is pending or confirmed; on the failing cases it
returns NotAuthorized / InvalidStateTransition with the database unchanged;
on success the order's status becomes cancelled and every product that
tracks inventory gains back the summed quantity of the order's line items
for it (untracked products are unchanged, expressed by the if). -/
theorem c6_cancel_spec (db : DB) (oid uid : Nat) (role : UserRole) (o : Order)
    (hfind : db.orders.find? (fun x => x.id == oid) = some o) :
    (¬(o.user_id = some uid ∨ role = UserRole.admin) →
      cancel_order db oid uid role = (db, Except.error ApiError.notAuthorized))
    ∧ ((o.user_id = some uid ∨ role = UserRole.admin) →
      ¬(o.status = OrderStatus.pending ∨ o.status = OrderStatus.confirmed) →
      cancel_order db oid uid role = (db, Except.error ApiError.invalidStateTransition))
    ∧ ((o.user_id = some uid ∨ role = UserRole.admin) →
      (o.status = OrderStatus.pending ∨ o.status = OrderStatus.confirmed) →
      (cancel_order db oid uid role).2 = Except.ok ()
      ∧ (cancel_order db oid uid role).1.orders.find? (fun x => x.id == oid)
          = some { o with status := OrderStatus.cancelled }
      ∧ ∀ pid p, get_product_by_id db pid = some p →
          get_product_by_id (cancel_order db oid uid role).1 pid =
            some { p with stock_quantity := p.stock_quantity +
              (if p.track_inventory then restockedQty (orderItemsOf db oid) pid else 0) }) := by
  refine ⟨fun hna => ?_, fun ha hst => ?_, fun ha hst => ?_⟩
  · rw [cancel_order_found hfind, if_pos]
    push_neg at hna
    exact ⟨fun he => hna.1 he, fun hr => hna.2 hr⟩
  · rw [cancel_order_found hfind, if_neg, if_pos]
    · push_neg at hst
      exact ⟨fun he => hst.1 he, fun hr => hst.2 hr⟩
    · intro hcon
      rcases ha with ha | ha
      · exact hcon.1 ha
      · exact hcon.2 ha
  · have hnot1 : ¬(o.user_id ≠ some uid ∧ role ≠ UserRole.admin) := by
      intro hcon
      rcases ha with ha | ha
      · exact hcon.1 ha
      · exact hcon.2 ha
    have hnot2 : ¬(o.status ≠ OrderStatus.pending ∧ o.status ≠ OrderStatus.confirmed) := by
      intro hcon
      rcases hst with hst | hst
      · exact hcon.1 hst
      · exact hcon.2 hst
    rw [cancel_order_found hfind, if_neg hnot1, if_neg hnot2]
    refine ⟨rfl, ?_, ?_⟩
    · show (restockLoop (update_order_status db oid OrderStatus.cancelled)
          (orderItemsOf (update_order_status db oid OrderStatus.cancelled) oid)).orders.find?
          (fun x => x.id == oid) = _
      rw [restockLoop_orders]
      exact find?_update_status_self db.orders oid OrderStatus.cancelled o hfind
    · intro pid p hp
      have hp2 : get_product_by_id (update_order_status db oid OrderStatus.cancelled) pid
          = some p := hp
      have := restockLoop_stock (orderItemsOf (update_order_status db oid OrderStatus.cancelled) oid)
        (update_order_status db oid OrderStatus.cancelled) pid p hp2
      exact this


/-- Witness for C6 at concrete inputs: a stranger cannot cancel, a delivered
order cannot be cancelled, and the owner cancelling a pending order restores
the tracked stock from 10 to 12 (2 units purchased). -/
theorem c6_witness :
    cancel_order c6db 1 8 UserRole.customer = (c6db, Except.error ApiError.notAuthorized)
    ∧ cancel_order c6dbDelivered 1 7 UserRole.customer
        = (c6dbDelivered, Except.error ApiError.invalidStateTransition)
    ∧ (cancel_order c6db 1 7 UserRole.customer).2 = Except.ok ()
    ∧ get_product_by_id (cancel_order c6db 1 7 UserRole.customer).1 1
        = some { sampleProduct with stock_quantity := 12 } := by
  have H1 := c6_cancel_spec c6db 1 8 UserRole.customer c6order rfl
  have H2 := c6_cancel_spec c6dbDelivered 1 7 UserRole.customer
    { c6order with status := OrderStatus.delivered } rfl
  have H3 := c6_cancel_spec c6db 1 7 UserRole.customer c6order rfl
  refine ⟨H1.1 (by decide), H2.2.1 (Or.inl rfl) (by decide), ?_, ?_⟩
  · exact (H3.2.2 (Or.inl rfl) (Or.inl rfl)).1
  · have hs := (H3.2.2 (Or.inl rfl) (Or.inl rfl)).2.2 1 sampleProduct rfl
    rw [hs]
    norm_num [restockedQty, orderItemsOf, c6db, c6item, sampleProduct]


theorem update_session_cart_item_found {db : DB} {sid : String} {pid : Nat} {q : Int}
    {ci : SessionCartItem}
    (h : db.session_cart.find? (fun x => x.session_id == sid && x.product_id == pid)
      = some ci) :
    update_session_cart_item db sid pid q =
      (if q ≤ 0 then
        ({ db with session_cart := db.session_cart.filter (fun x => !(x.id == ci.id)) },
         some ci)
       else
        ({ db with session_cart := db.session_cart.map (fun x => if x.id == ci.id then { x with quantity := q } else x) },
         some { ci with quantity := q })) := by
  rw [update_session_cart_item, h]

theorem update_cart_item_found {db : DB} {cid uid : Nat} {q : Int} {ci : CartItem}
    (h : db.cart_items.find? (fun x => x.id == cid && x.user_id == uid) = some ci) :
    update_cart_item db cid uid q =
      ({ db with cart_items := db.cart_items.map (fun x => if x.id == ci.id then { x with quantity := q } else x) },
       some { ci with quantity := q }) := by
  rw [update_cart_item, h]

theorem update_cart_item_none {db : DB} {cid uid : Nat} {q : Int}
    (h : db.cart_items.find? (fun x => x.id == cid && x.user_id == uid) = none) :
    update_cart_item db cid uid q = (db, none) := by
  rw [update_cart_item, h]

/-- Claim C8 (amended): on the guest/session cart, setItemQuantity deletes
the line when the quantity is ≤ 0 and replaces (not increments) its quantity
otherwise, assuming the cart holds at most one line per (session, product)
pair (the invariant the cart API maintains); on the authenticated cart the
endpoint rejects quantity ≤ 0 with an error and leaves the database
unchanged, and replaces the quantity for positive input (one line per row
id). -/
theorem c8_set_quantity_spec (db db' : DB) (sid : String) (pid : Nat) (q : Int)
    (uid cid : Nat) (r : SessionCartItem) (rc : CartItem) :
    ((∀ x ∈ db.session_cart, ∀ y ∈ db.session_cart,
        x.session_id = y.session_id → x.product_id = y.product_id → x = y) →
      update_session_cart_item db sid pid q = (db', some r) →
      (q ≤ 0 → ∀ x ∈ db'.session_cart, ¬(x.session_id = sid ∧ x.product_id = pid))
      ∧ (0 < q → r.quantity = q ∧
          ∀ x ∈ db'.session_cart, x.session_id = sid → x.product_id = pid →
            x.quantity = q))
    ∧ (q ≤ 0 →
      update_cart_item_api db uid cid q = (db, Except.error ApiError.invalidQuantity))
    ∧ ((∀ x ∈ db.cart_items, ∀ y ∈ db.cart_items, x.id = y.id → x = y) →
      update_cart_item_api db uid cid q = (db', Except.ok rc) →
      rc.quantity = q ∧ ∀ x ∈ db'.cart_items, x.id = cid → x.quantity = q) := by
  refine ⟨fun hkey hu => ?_, fun hq => ?_, fun hid hu => ?_⟩
  · cases hf : db.session_cart.find?
        (fun x => x.session_id == sid && x.product_id == pid) with
    | none =>
      rw [update_session_cart_item, hf] at hu
      injection hu with h1 h2
      cases h2
    | some ci =>
      have hcimem : ci ∈ db.session_cart := List.mem_of_find?_eq_some hf
      have hcip := List.find?_some hf
      have hcisid : ci.session_id = sid := by
        simp only [Bool.and_eq_true, beq_iff_eq] at hcip
        exact hcip.1
      have hcipid : ci.product_id = pid := by
        simp only [Bool.and_eq_true, beq_iff_eq] at hcip
        exact hcip.2
      rw [update_session_cart_item_found hf] at hu
      constructor
      · intro hq x hx hxkey
        rw [if_pos hq] at hu
        injection hu with h1 h2
        rw [← h1] at hx
        simp only [List.mem_filter] at hx
        have hxmem : x ∈ db.session_cart := hx.1
        have hxne : ¬(x.id = ci.id) := by
          have := hx.2
          simpa using this
        have hxeq : x = ci := hkey x hxmem ci hcimem
          (hxkey.1.trans hcisid.symm) (hxkey.2.trans hcipid.symm)
        exact hxne (by rw [hxeq])
      · intro hq
        rw [if_neg (not_le.mpr hq)] at hu
        injection hu with h1 h2
        injection h2 with h3
        constructor
        · rw [← h3]
        · intro x hx hxsid hxpid
          rw [← h1] at hx
          simp only [List.mem_map] at hx
          obtain ⟨y, hy, hxy⟩ := hx
          by_cases hyid : y.id = ci.id
          · rw [← hxy]
            simp [hyid]
          · rw [← hxy] at hxsid hxpid ⊢
            simp only [hyid, beq_iff_eq, if_neg] at hxsid hxpid ⊢
            have hyeq : y = ci := hkey y hy ci hcimem
              (hxsid.trans hcisid.symm) (hxpid.trans hcipid.symm)
            exact absurd (by rw [hyeq]) hyid
  · rw [update_cart_item_api, if_pos hq]
  · by_cases hq2 : q ≤ 0
    · rw [update_cart_item_api, if_pos hq2] at hu
      injection hu with h1 h2
      cases h2
    · rw [update_cart_item_api, if_neg hq2] at hu
      cases hf : db.cart_items.find? (fun x => x.id == cid && x.user_id == uid) with
      | none =>
        rw [update_cart_item_none hf] at hu
        have hu2 : ((db, Except.error ApiError.cartItemNotFound) :
            DB × Except ApiError CartItem) = (db', Except.ok rc) := hu
        injection hu2 with h1 h2
        cases h2
      | some ci =>
        have hciid : ci.id = cid := by
          have := List.find?_some hf
          simp only [Bool.and_eq_true, beq_iff_eq] at this
          exact this.1
        rw [update_cart_item_found hf] at hu
        have hu2 : (({ db with cart_items := db.cart_items.map (fun x => if x.id == ci.id then { x with quantity := q } else x) },
            Except.ok ({ ci with quantity := q } : CartItem)) :
            DB × Except ApiError CartItem) = (db', Except.ok rc) := hu
        injection hu2 with h1 h2
        injection h2 with h3
        constructor
        · rw [← h3]
        · intro x hx hxid
          rw [← h1] at hx
          simp only [List.mem_map] at hx
          obtain ⟨y, hy, hxy⟩ := hx
          by_cases hyid : y.id = ci.id
          · rw [← hxy]
            simp [hyid]
          · have hxeqy : x = y := by
              rw [← hxy]
              simp [hyid]
            have hyeq : y = ci := hid y hy ci (List.mem_of_find?_eq_some hf)
              (by rw [← hxeqy, hxid, hciid])
            exact absurd (by rw [hyeq]) hyid


/-- Witness for the amended C8 at concrete inputs: deleting via quantity 0 on
the session cart, replacing with 5 on both carts, and the authenticated
rejection of quantity 0. -/
theorem c8_witness :
    (∀ x ∈ (update_session_cart_item c8sdb ("sessu") 1 0).1.session_cart,
      ¬(x.session_id = ("sessu") ∧ x.product_id = 1))
    ∧ ((⟨1, ("sessu"), 1, 5⟩ : SessionCartItem)).quantity = 5
    ∧ update_cart_item_api c8db 7 1 0 = (c8db, Except.error ApiError.invalidQuantity)
    ∧ ((⟨1, 7, 1, none, 5⟩ : CartItem)).quantity = 5 := by
  have Hd := c8_set_quantity_spec c8sdb (update_session_cart_item c8sdb ("sessu") 1 0).1
    ("sessu") 1 0 7 1 (⟨1, ("sessu"), 1, 2⟩ : SessionCartItem) (⟨1, 7, 1, none, 2⟩ : CartItem)
  have Hr := c8_set_quantity_spec c8sdb (update_session_cart_item c8sdb ("sessu") 1 5).1
    ("sessu") 1 5 7 1 (⟨1, ("sessu"), 1, 5⟩ : SessionCartItem) (⟨1, 7, 1, none, 5⟩ : CartItem)
  have Ha0 := c8_set_quantity_spec c8db c8db ("s") 1 0 7 1
    (⟨1, ("s"), 1, 0⟩ : SessionCartItem) (⟨1, 7, 1, none, 0⟩ : CartItem)
  have Ha := c8_set_quantity_spec c8db (update_cart_item_api c8db 7 1 5).1 ("s") 1 5 7 1
    (⟨1, ("s"), 1, 5⟩ : SessionCartItem) (⟨1, 7, 1, none, 5⟩ : CartItem)
  refine ⟨(Hd.1 (by decide) rfl).1 (by decide), ?_, Ha0.2.1 (by decide), ?_⟩
  · exact ((Hr.1 (by decide) rfl).2 (by norm_num)).1
  · exact (Ha.2.2 (by decide) rfl).1


/-- Claim C5 (amended): a successful guest checkout decrements every tracked
product by exactly the summed purchased quantity and cannot drive it
negative (the per-line re-check before each decrement guards it); a
successful authenticated checkout decrements by the summed purchased
quantity, and when the cart holds at most one line per product (no
same-product multi-variant lines) the result stays nonnegative — the
counterexample shows that two lines for one product break this. -/
theorem c5_stock_spec :
    (∀ (db db' : DB) (sid f : String) (l : Option String) (t : Nat) (fault : Option Nat)
      (o : Order) (pid : Nat) (p : Product),
      create_order_from_session_cart db sid f l t fault = (db', Except.ok o) →
      get_product_by_id db pid = some p → p.track_inventory = true →
      get_product_by_id db' pid = some { p with stock_quantity := p.stock_quantity - purchasedGuest (get_session_cart_items db sid) pid }
      ∧ (0 ≤ p.stock_quantity →
        0 ≤ p.stock_quantity - purchasedGuest (get_session_cart_items db sid) pid))
    ∧ (∀ (db db' : DB) (uid : Nat) (d u : String) (o : Order) (pid : Nat) (p : Product),
      ((get_user_cart db uid).map (fun x => x.product_id)).Nodup →
      create_order_from_cart db uid d u = (db', Except.ok o) →
      get_product_by_id db pid = some p → p.track_inventory = true →
      get_product_by_id db' pid = some { p with stock_quantity := p.stock_quantity - purchasedUser (get_user_cart db uid) pid }
      ∧ (0 ≤ p.stock_quantity →
        0 ≤ p.stock_quantity - purchasedUser (get_user_cart db uid) pid)) := by
  constructor
  · intro db db' sid f l t fault o pid p h hp htr
    obtain ⟨hne, hv, _, ho, dbA, hloop, hdb⟩ := guest_checkout_ok h
    have hpc : get_product_by_id (guestCommitted db sid f l t) pid = some p := hp
    have hres := guestItemLoop_ok_stock (get_session_cart_items db sid) _ fault 0
      (guestCommitted db sid f l t) dbA pid p hloop hpc
    subst hdb
    constructor
    · rw [get_product_by_id_clear_session, hres.1]
      simp [htr]
    · exact hres.2 htr
  · intro db db' uid d u o pid p hnd h hp htr
    obtain ⟨hne, hv, ho, hdb⟩ := create_order_from_cart_ok h
    subst hdb
    have hp1 : get_product_by_id (create_order db (cartOrderItems db uid) uid d u).1 pid
        = some p := hp
    have hdec := decLoopUser_stock (get_user_cart db uid) _ pid p hp1
    constructor
    · rw [get_product_by_id_clear_user, hdec]
      simp [htr]
    · intro h0
      by_cases hmem : pid ∈ (get_user_cart db uid).map (fun x => x.product_id)
      · obtain ⟨ci, hci, hcip⟩ := List.mem_map.mp hmem
        have hpq : purchasedUser (get_user_cart db uid) pid = ci.quantity := by
          rw [← hcip]
          exact purchasedUser_eq_of_nodup hnd hci
        obtain ⟨p2, hp2, hle⟩ := (validateUserCart_ok_iff db _).mp hv ci hci
        rw [hcip, hp] at hp2
        injection hp2 with hp3
        subst hp3
        rw [hpq]
        have hq := hle htr
        omega
      · rw [purchasedUser_eq_zero hmem]
        omega


/-- Witness for the amended C5 at concrete inputs: the guest checkout of
`c9db` (stock 10, one unit bought) and the authenticated checkout of `c3db`
(stock 10, five units bought, one line per product). -/
theorem c5_witness :
    get_product_by_id c9run1.1 1 = some { sampleProduct with stock_quantity := sampleProduct.stock_quantity - purchasedGuest (get_session_cart_items c9db ("sessabcd")) 1 }
    ∧ 0 ≤ sampleProduct.stock_quantity - purchasedUser (get_user_cart c3db 7) 1 := by
  have hg := c5_stock_spec.1 c9db c9run1.1 ("sessabcd") ("A") none 1700000000 none
    (guestOrder c9db ("sessabcd") ("A") none 1700000000) 1 sampleProduct rfl rfl rfl
  have ha := c5_stock_spec.2 c3db
    ((create_order_from_cart c3db 7 ("20251012") ("AAAAAAAA")).1) 7
    ("20251012") ("AAAAAAAA")
    ((create_order c3db (cartOrderItems c3db 7) 7 ("20251012") ("AAAAAAAA")).2) 1
    sampleProduct (by decide) rfl rfl rfl
  exact ⟨hg.1, ha.2 (by decide)⟩


theorem length_filterMap_lt {α β : Type _} (f : α → Option β) (l : List α) (a : α)
    (ha : a ∈ l) (hf : f a = none) : (l.filterMap f).length < l.length := by
  induction l with
  | nil => cases ha
  | cons x t ih =>
    rw [List.filterMap_cons]
    rcases List.mem_cons.mp ha with he | hm
    · subst he
      rw [hf]
      exact Nat.lt_succ_of_le (List.length_filterMap_le f t)
    · cases hfx : f x with
      | none => exact Nat.lt_succ_of_lt (ih hm)
      | some b =>
        simp only [List.length_cons]
        exact Nat.succ_lt_succ (ih hm)

theorem create_order_fst_orders (db : DB) (items : List OrderItemCreate) (uid : Nat)
    (d u : String) :
    (create_order db items uid d u).1.orders
      = db.orders ++ [(create_order db items uid d u).2] := rfl

theorem create_order_fst_items (db : DB) (items : List OrderItemCreate) (uid : Nat)
    (d u : String) :
    (create_order db items uid d u).1.order_items
      = db.order_items ++ createOrderItemRows db items := rfl

theorem create_order_snd_id (db : DB) (items : List OrderItemCreate) (uid : Nat)
    (d u : String) :
    (create_order db items uid d u).2.id = db.next_order_id := rfl

theorem mem_createOrderItemRows {db : DB} {items : List OrderItemCreate} {r : OrderItem}
    (hr : r ∈ createOrderItemRows db items) :
    r.order_id = db.next_order_id ∧ (get_product_by_id db r.product_id).isSome = true := by
  rw [createOrderItemRows, List.mem_filterMap] at hr
  obtain ⟨a, ha, hfa⟩ := hr
  rw [Option.map_eq_some'] at hfa
  obtain ⟨p, hp, hgp⟩ := hfa
  constructor
  · rw [← hgp]
  · have : r.product_id = a.product_id := by rw [← hgp]
    rw [this, hp]
    rfl

/-- Claim C10: when a requested line's product id does not resolve at
persistence time, `crud.create_order` still persists the order, silently
omitting that line item (every persisted row's product resolves, and fewer
rows than requested lines are persisted), while the stored subtotal — and
hence the stored total — still includes the missing line's
quantity times unit price. -/
theorem c10_missing_product_skipped (db : DB) (items : List OrderItemCreate) (uid : Nat)
    (d u : String) (it : OrderItemCreate)
    (hfresh : ∀ r ∈ db.order_items, r.order_id ≠ db.next_order_id)
    (hmem : it ∈ items) (hmiss : get_product_by_id db it.product_id = none) :
    (create_order db items uid d u).2 ∈ (create_order db items uid d u).1.orders
    ∧ (orderItemsOf (create_order db items uid d u).1
        (create_order db items uid d u).2.id).length < items.length
    ∧ (∀ r ∈ orderItemsOf (create_order db items uid d u).1
        (create_order db items uid d u).2.id,
        (get_product_by_id db r.product_id).isSome = true)
    ∧ (create_order db items uid d u).2.subtotal
        = (items.map (fun x => (x.quantity : ℚ) * x.unit_price)).sum
    ∧ (create_order db items uid d u).2.total_amount
        = (create_order db items uid d u).2.subtotal
          + (create_order db items uid d u).2.tax_amount
          + (create_order db items uid d u).2.shipping_amount
          - (create_order db items uid d u).2.discount_amount := by
  have hrows : orderItemsOf (create_order db items uid d u).1
      (create_order db items uid d u).2.id = createOrderItemRows db items := by
    rw [orderItemsOf, create_order_fst_items, create_order_snd_id, List.filter_append]
    have hold : db.order_items.filter (fun r => r.order_id == db.next_order_id) = [] := by
      rw [List.filter_eq_nil_iff]
      intro r hr
      simpa using hfresh r hr
    have hnew : (createOrderItemRows db items).filter
        (fun r => r.order_id == db.next_order_id) = createOrderItemRows db items := by
      rw [List.filter_eq_self]
      intro r hr
      simpa using (mem_createOrderItemRows hr).1
    rw [hold, hnew, List.nil_append]
  refine ⟨?_, ?_, ?_, rfl, ?_⟩
  · rw [create_order_fst_orders]
    exact List.mem_append.mpr (Or.inr (List.mem_singleton.mpr rfl))
  · rw [hrows, createOrderItemRows]
    exact length_filterMap_lt _ items it hmem (by rw [hmiss]; rfl)
  · intro r hr
    rw [hrows] at hr
    exact (mem_createOrderItemRows hr).2
  · rw [create_order_snd_total, create_order_snd_subtotal, create_order_snd_tax,
        create_order_snd_shipping, create_order_snd_discount, sub_zero]


/-- Witness for C10 at a concrete input: two requested lines, the second for
the nonexistent product 99 — fewer than two rows are persisted while the
subtotal still sums both lines. -/
theorem c10_witness :
    (orderItemsOf (create_order c10db ([⟨1, none, 1, 100⟩, ⟨99, none, 2, 10⟩]) 5
        ("20251012") ("BBBBBBBB")).1
      (create_order c10db ([⟨1, none, 1, 100⟩, ⟨99, none, 2, 10⟩]) 5
        ("20251012") ("BBBBBBBB")).2.id).length < 2
    ∧ (create_order c10db ([⟨1, none, 1, 100⟩, ⟨99, none, 2, 10⟩]) 5
        ("20251012") ("BBBBBBBB")).2.subtotal
      = (([⟨1, none, 1, 100⟩, ⟨99, none, 2, 10⟩] : List OrderItemCreate).map
          (fun x => (x.quantity : ℚ) * x.unit_price)).sum := by
  have H := c10_missing_product_skipped c10db ([⟨1, none, 1, 100⟩, ⟨99, none, 2, 10⟩]) 5
    ("20251012") ("BBBBBBBB") (⟨99, none, 2, 10⟩ : OrderItemCreate)
    (fun r hr => absurd hr (List.not_mem_nil r))
    (List.mem_cons_of_mem _ (List.mem_singleton.mpr rfl)) rfl
  exact ⟨H.2.1, H.2.2.2.1⟩

end Ecom
